import Mathlib

/-!
Verification development for the Insurance_Cargo repository.

The development shallowly embeds the two Python services:
  * `services/tariff_service/app/tariff.py` — the rating engine
    (`assess`, `_round_money`, `quote` over a loaded `TariffConfig`);
  * `services/dialog_service/app/main.py` — the field extractors, the
    LLM classifier adapter (`llm_classify_cargo_with_trace`) and the
    dialog state machine (the `/chat` handler).

Modelling conventions:
  * Python `Decimal` values are modelled as exact rationals (`ℚ`).
    `float` conversion in `parse_sum_rub` is likewise modelled as exact
    rational arithmetic.
  * Python dicts with string keys are association lists with a
    first-match lookup; `str.lower`/`str.upper` are modelled for ASCII
    and the Cyrillic alphabet, the character classes `\d`, `\s` and the
    word characters of `\b` for ASCII digits/whitespace plus Cyrillic
    letters.
  * Fallible code (KeyError, HTTP failures) returns `Option`.
  * The external LLM capability is an oracle `Nat → AttemptRes` giving,
    for each 1-based attempt index, either a raised exception or the
    parsed fields of the returned JSON object; `time.sleep` calls are
    recorded as a list of slept delays.
-/

namespace Insurance

/-- First-match lookup in an association list, modelling Python dict
indexing and membership for string keys. -/
def lookupS {α : Type} : List (String × α) → String → Option α
  | [], _ => none
  | (k, v) :: rest, key => if key = k then some v else lookupS rest key

/-- Lookup in a character table. -/
def lookupChar : List (Char × Char) → Char → Option Char
  | [], _ => none
  | (k, v) :: rest, c => if c = k then some v else lookupChar rest c

/-- Uppercase-to-lowercase table for ASCII and the Cyrillic alphabet. -/
def lowerTable : List (Char × Char) :=
  [('A', 'a'), ('B', 'b'), ('C', 'c'), ('D', 'd'), ('E', 'e'), ('F', 'f'),
   ('G', 'g'), ('H', 'h'), ('I', 'i'), ('J', 'j'), ('K', 'k'), ('L',
   'l'), ('M', 'm'), ('N', 'n'), ('O', 'o'), ('P', 'p'), ('Q', 'q'),
   ('R', 'r'), ('S', 's'), ('T', 't'), ('U', 'u'), ('V', 'v'), ('W',
   'w'), ('X', 'x'), ('Y', 'y'), ('Z', 'z'), ('А', 'а'), ('Б', 'б'),
   ('В', 'в'), ('Г', 'г'), ('Д', 'д'), ('Е', 'е'), ('Ж', 'ж'), ('З',
   'з'), ('И', 'и'), ('Й', 'й'), ('К', 'к'), ('Л', 'л'), ('М', 'м'),
   ('Н', 'н'), ('О', 'о'), ('П', 'п'), ('Р', 'р'), ('С', 'с'), ('Т',
   'т'), ('У', 'у'), ('Ф', 'ф'), ('Х', 'х'), ('Ц', 'ц'), ('Ч', 'ч'),
   ('Ш', 'ш'), ('Щ', 'щ'), ('Ъ', 'ъ'), ('Ы', 'ы'), ('Ь', 'ь'), ('Э',
   'э'), ('Ю', 'ю'), ('Я', 'я'), ('Ё', 'ё')]

/-- Character lowercasing as in Python `str.lower`, covering ASCII and
the Cyrillic alphabet (other characters are left unchanged). -/
def pyLowerChar (c : Char) : Char := (lookupChar lowerTable c).getD c

/-- Character uppercasing as in Python `str.upper`, covering ASCII and
the Cyrillic alphabet (other characters are left unchanged). -/
def pyUpperChar (c : Char) : Char :=
  if 'a' ≤ c ∧ c ≤ 'z' then Char.ofNat (c.toNat - 32)
  else if 0x430 ≤ c.toNat ∧ c.toNat ≤ 0x44F then Char.ofNat (c.toNat - 32)
  else if c.toNat = 0x451 then Char.ofNat 0x401
  else c

/-- String lowercasing (Python `str.lower`). -/
def pyLowerStr (s : String) : String := ⟨s.data.map pyLowerChar⟩

/-- String uppercasing (Python `str.upper`). -/
def pyUpperStr (s : String) : String := ⟨s.data.map pyUpperChar⟩

/-- Whitespace characters recognised by Python `str.strip` and the
regex class `\s` (ASCII subset). -/
def isPySpace (c : Char) : Bool :=
  c = ' ' || c = '\t' || c = '\n' || c = '\r' || c.toNat = 11 || c.toNat = 12

/-- Python `str.strip`. -/
def pyStrip (s : String) : String :=
  ⟨((s.data.dropWhile isPySpace).reverse.dropWhile isPySpace).reverse⟩

/-- Word characters for the regex `\b` boundary: ASCII alphanumerics,
underscore, and Cyrillic letters. -/
def isWordChar (c : Char) : Bool :=
  c.isAlphanum || c = '_' ||
    (0x410 ≤ c.toNat && c.toNat ≤ 0x44F) || c.toNat = 0x401 || c.toNat = 0x451

/-- Boolean test that `pre` is a prefix of a character list. -/
def isPre : List Char → List Char → Bool
  | [], _ => true
  | _ :: _, [] => false
  | a :: as, b :: bs => a = b && isPre as bs

/-- Boolean test that `needle` occurs as a contiguous subsequence of
`hay`, modelling the Python `in` operator on strings. -/
def hasSeq (needle : List Char) : List Char → Bool
  | [] => needle.isEmpty
  | c :: t => isPre needle (c :: t) || hasSeq needle t

/-- Python `needle in hay` on strings. -/
def pyIn (needle hay : String) : Bool := hasSeq needle.data hay.data

/-- Numeric value of a list of ASCII digits (most significant first). -/
def natOfDigits (l : List Char) : Nat :=
  l.foldl (fun a c => a * 10 + (c.toNat - 48)) 0

/-- Python `str(b).lower()` for a bool. -/
def boolStr (b : Bool) : String := if b then "true" else "false"

/-- Python `str(i)` for an int. -/
def intStr (i : Int) : String := toString i

/-! ## Rating engine (`services/tariff_service/app/tariff.py`) -/

/-- In-memory tariff table, as produced by `load_config`
(tariff.py lines 14–24): `Decimal` fields are exact rationals, the
rate/coefficient dicts are association lists. -/
structure TariffConfig where
  version : String
  auto_limit_rub : ℚ
  min_premium_rub : ℚ
  base_rates : List (String × List (String × ℚ))
  k_franchise : List (String × ℚ)
  k_reefer : List (String × ℚ)
  k_route : List (String × ℚ)
  rounding_mode : String
  rounding_step_rub : Int
  deriving DecidableEq

/-- The fact tuple passed (as keyword arguments) to `assess` and
`quote`. -/
structure RatingFacts where
  cargo_class_id : String
  sum_insured_rub : ℚ
  condition : String
  franchise_rub : Int
  is_reefer : Bool
  route_zone : String
  deriving DecidableEq

/-- The `assess` function of tariff.py lines 77–104: a short-circuiting
sequence of checks returning a decision string and reason list. -/
def assess (cfg : TariffConfig) (f : RatingFacts) : String × List String :=
  match lookupS cfg.base_rates f.cargo_class_id with
  | none => ("DECLINE", ["CARGO_NOT_ELIGIBLE"])
  | some byCond =>
    match lookupS byCond (pyUpperStr f.condition) with
    | none => ("REFER", ["CONDITION_NOT_SUPPORTED"])
    | some _ =>
      if cfg.auto_limit_rub < f.sum_insured_rub then ("REFER", ["LIMIT_EXCEEDED"])
      else match lookupS cfg.k_franchise (intStr f.franchise_rub) with
      | none => ("REFER", ["FRANCHISE_NOT_SUPPORTED"])
      | some _ =>
        match lookupS cfg.k_route f.route_zone with
        | none => ("REFER", ["ROUTE_ZONE_NOT_SUPPORTED"])
        | some _ =>
          match lookupS cfg.k_reefer (boolStr f.is_reefer) with
          | none => ("REFER", ["REEFER_FLAG_NOT_SUPPORTED"])
          | some _ => ("AUTO_OK", [])

/-- `Decimal.to_integral_value(rounding=ROUND_HALF_UP)`: round to the
nearest integer with ties going away from zero. -/
def pyRoundHalfUp (x : ℚ) : ℤ :=
  if 0 ≤ x then Rat.floor (x + 1 / 2) else -(Rat.floor (-x + 1 / 2))

/-- `Decimal.to_integral_value(rounding=ROUND_CEILING)`: round toward
positive infinity. -/
def pyCeil (x : ℚ) : ℤ := -(Rat.floor (-x))

/-- The `_round_money` helper of tariff.py lines 107–121. -/
def round_money (amount : ℚ) (step_rub : Int) (mode : String) : ℚ :=
  if step_rub = 1 then
    if mode = "CEIL" then (pyCeil amount : ℚ) else (pyRoundHalfUp amount : ℚ)
  else
    if mode = "CEIL" then (pyCeil (amount / (step_rub : ℚ)) : ℚ) * (step_rub : ℚ)
    else (pyRoundHalfUp (amount / (step_rub : ℚ)) : ℚ) * (step_rub : ℚ)

/-- The four table lookups and the raw product of `quote`
(tariff.py lines 126–132); `none` models a raised `KeyError`. -/
def quoteRaw (cfg : TariffConfig) (f : RatingFacts) : Option ℚ :=
  match lookupS cfg.base_rates f.cargo_class_id with
  | none => none
  | some byCond =>
    match lookupS byCond (pyUpperStr f.condition) with
    | none => none
    | some base_rate =>
      match lookupS cfg.k_franchise (intStr f.franchise_rub),
            lookupS cfg.k_reefer (boolStr f.is_reefer),
            lookupS cfg.k_route f.route_zone with
      | some k_fr, some k_ref, some k_rt =>
          some (f.sum_insured_rub * base_rate * k_fr * k_ref * k_rt)
      | _, _, _ => none

/-- The `quote` function of tariff.py lines 124–141: round the raw
premium and clamp it up to the configured minimum; `none` models a
raised `KeyError`. -/
def quote (cfg : TariffConfig) (f : RatingFacts) : Option (ℚ × Bool) :=
  match quoteRaw cfg f with
  | none => none
  | some raw =>
    let rounded := round_money raw cfg.rounding_step_rub cfg.rounding_mode
    if rounded < cfg.min_premium_rub then some (cfg.min_premium_rub, true)
    else some (rounded, false)

/-! Specification-side view of `assess` as a first-failing-check
function, used to state the short-circuit claim. -/

/-- The six checks of `assess`, in source order. -/
inductive CheckTag
  | cargo | cond | limit | franchise | route | reefer
  deriving DecidableEq

/-- Whether a given check fails on the given facts. -/
def checkFails (cfg : TariffConfig) (f : RatingFacts) : CheckTag → Bool
  | .cargo => (lookupS cfg.base_rates f.cargo_class_id).isNone
  | .cond =>
      ((lookupS cfg.base_rates f.cargo_class_id).bind
        (fun m => lookupS m (pyUpperStr f.condition))).isNone
  | .limit => decide (cfg.auto_limit_rub < f.sum_insured_rub)
  | .franchise => (lookupS cfg.k_franchise (intStr f.franchise_rub)).isNone
  | .route => (lookupS cfg.k_route f.route_zone).isNone
  | .reefer => (lookupS cfg.k_reefer (boolStr f.is_reefer)).isNone

/-- The fixed priority order of the checks. -/
def checkOrder : List CheckTag :=
  [.cargo, .cond, .limit, .franchise, .route, .reefer]

/-- The first failing check in priority order, if any. -/
def firstFailing (cfg : TariffConfig) (f : RatingFacts) : Option CheckTag :=
  checkOrder.find? (checkFails cfg f)

/-- Decision and reason produced by each failing check. -/
def checkOutcome : CheckTag → String × List String
  | .cargo => ("DECLINE", ["CARGO_NOT_ELIGIBLE"])
  | .cond => ("REFER", ["CONDITION_NOT_SUPPORTED"])
  | .limit => ("REFER", ["LIMIT_EXCEEDED"])
  | .franchise => ("REFER", ["FRANCHISE_NOT_SUPPORTED"])
  | .route => ("REFER", ["ROUTE_ZONE_NOT_SUPPORTED"])
  | .reefer => ("REFER", ["REEFER_FLAG_NOT_SUPPORTED"])

/-- Concrete tariff table exercising the rating engine: the
minimum premium (50) is not a multiple of the rounding step (100). -/
def cfgMinStep : TariffConfig :=
  { version := "v1"
    auto_limit_rub := 1000000000
    min_premium_rub := 50
    base_rates := [("CARGO003", [("NEW", 1 / 1000000)])]
    k_franchise := [("20000", 1)]
    k_reefer := [("false", 1)]
    k_route := [("РФ", 1)]
    rounding_mode := "HALF_UP"
    rounding_step_rub := 100 }

/-- Facts accepted by `cfgMinStep` whose raw premium rounds to 0. -/
def factsMinStep : RatingFacts :=
  { cargo_class_id := "CARGO003"
    sum_insured_rub := 1000000
    condition := "NEW"
    franchise_rub := 20000
    is_reefer := false
    route_zone := "РФ" }

/-! ## Classifier adapter (`services/dialog_service/app/main.py`) -/

/-- The fixed cargo whitelist `CARGO_CLASSES` (main.py lines 56–73). -/
def CARGO_CLASSES : List (String × String) :=
  [("CARGO001", "Автотранспортные средства и принадлежности к ним (в т.ч. пневматические шины)"),
   ("CARGO002", "Целлюлозно-бумажная продукция (бумага, картон, изделия из бумаги) и вторичное сырьё (макулатура)"),
   ("CARGO003", "Бытовая электротехника, электронная аппаратура и офисная (организационная) техника"),
   ("CARGO004", "Лекарственные средства (медикаменты), не требующие соблюдения температурного режима при перевозке и хранении"),
   ("CARGO005", "Автокомпоненты: запасные части, узлы, агрегаты и аксессуары к автотранспортным средствам"),
   ("CARGO006", "Фармацевтическая продукция (прочая/субстанции и т.п.), если принимается по условиям страхования"),
   ("CARGO007", "Строительные материалы, отделочные материалы и строительно-монтажный инструмент"),
   ("CARGO008", "Парфюмерно-косметическая продукция и товары бытовой химии"),
   ("CARGO009", "Мебель и предметы интерьера"),
   ("CARGO010", "Товары народного потребления (прочие), не поименованные отдельно в перечне допустимых грузов"),
   ("CARGO011", "Продовольственные товары (пищевые продукты)"),
   ("CARGO012", "Детские товары (в т.ч. игрушки) и товары для спорта и отдыха (спортивный инвентарь)"),
   ("CARGO013", "Оборудование промышленное/технологическое (в т.ч. станки, агрегаты, производственные линии)"),
   ("CARGO014", "Изделия медицинского назначения: медицинская техника, инструменты и медицинские изделия"),
   ("CARGO015", "Металлопрокат и изделия из металла (металлоизделия)"),
   ("CARGO016", "Химическая продукция неопасная (не классифицируемая как опасный груз/ADR)")]

/-- `CARGO_ORDER = list(CARGO_CLASSES.keys())` (main.py line 74). -/
def CARGO_ORDER : List String := CARGO_CLASSES.map Prod.fst

/-- Tri-state outcome of the classifier adapter. -/
inductive LLMStatus
  | ok | uncertain | error
  deriving DecidableEq

/-- Result of a single external LLM call, as the adapter observes it:
either the `try` block raised (transport failure or JSON parse failure,
carrying the exception class name), or a JSON object was parsed,
carrying its `cargo_class_id` (nullable) and `reason` fields. -/
inductive AttemptRes
  | exn (errName : String)
  | parsed (cargo_class_id : Option String) (reason : String)
  deriving DecidableEq

/-- Observable outcome of one adapter invocation: the returned triple
of `llm_classify_cargo_with_trace` plus the number of attempts made and
the list of delays passed to `time.sleep`. -/
structure LLMOutcome where
  cargo_class_id : Option String
  status : LLMStatus
  reason : String
  attemptsMade : Nat
  sleeps : List ℚ
  deriving DecidableEq

/-- The final keyword test of main.py line 211:
`"failed" in last_reason.lower() or "not configured" in ... or "attempt" in ...`. -/
def kwCheck (reason : String) : Bool :=
  pyIn "failed" (pyLowerStr reason) || pyIn "not configured" (pyLowerStr reason) ||
    pyIn "attempt" (pyLowerStr reason)

/-- The f-string `f"LLM attempt {attempt} failed: {err_name}"`. -/
def failMsg (attempt : Nat) (errName : String) : String :=
  "LLM attempt " ++ toString attempt ++ " failed: " ++ errName

/-- Whether an attempt result takes the `status == "ok" and cid` early
return of main.py line 201: the parsed id is a whitelist member (and a
truthy string). -/
def isOkA : AttemptRes → Bool
  | .exn _ => false
  | .parsed cido _ =>
    match cido with
    | some c => (lookupS CARGO_CLASSES c).isSome && (c != "")
    | none => false

/-- The retry loop of main.py lines 148–213 with `remaining` iterations
left and `made` attempts already made; carries `last_reason` and
`last_uncertain_reason` and the list of slept delays.  Sleeping happens
only when further attempts remain (`attempt < max_attempts`). -/
def llmGo (oracle : Nat → AttemptRes) (base : ℚ) :
    Nat → Nat → String → String → List ℚ → LLMOutcome
  | 0, made, lastR, lastU, sl =>
      if kwCheck lastR then ⟨none, .error, lastR, made, sl⟩
      else ⟨none, .uncertain, (if lastU ≠ "" then lastU else lastR), made, sl⟩
  | (r + 1), made, lastR, lastU, sl =>
      match oracle (made + 1) with
      | .exn e =>
          if r = 0 then llmGo oracle base r (made + 1) (failMsg (made + 1) e) lastU sl
          else llmGo oracle base r (made + 1) (failMsg (made + 1) e) lastU
            (sl ++ [base * ((made : ℚ) + 1)])
      | .parsed cido reason =>
          if isOkA (.parsed cido reason) then ⟨cido, .ok, reason, made + 1, sl⟩
          else
            if r = 0 then llmGo oracle base r (made + 1)
              (if reason ≠ "" then reason else "not in whitelist")
              (if reason ≠ "" then reason else "not in whitelist") sl
            else llmGo oracle base r (made + 1)
              (if reason ≠ "" then reason else "not in whitelist")
              (if reason ≠ "" then reason else "not in whitelist")
              (sl ++ [base * ((made : ℚ) + 1)])

/-- The adapter `llm_classify_cargo_with_trace` (main.py lines
104–213): an unconfigured client returns the error outcome at once
(zero attempts, no sleeps); otherwise the retry loop runs with
`last_reason = "unknown"` and `last_uncertain_reason = "uncertain"`. -/
def llm_classify_cargo (configured : Bool) (oracle : Nat → AttemptRes)
    (max_attempts : Nat) (base_delay : ℚ) : LLMOutcome :=
  if configured then llmGo oracle base_delay max_attempts 0 "unknown" "uncertain" []
  else ⟨none, .error, "LLM not configured", 0, []⟩

/-- Specification-side recomputation of the pair
(`last_reason`, `last_uncertain_reason`) after a run of non-ok
attempts. -/
def runReasons (oracle : Nat → AttemptRes) : Nat → Nat → String × String → String × String
  | _, 0, st => st
  | made, (r + 1), st =>
      match oracle (made + 1) with
      | .exn e => runReasons oracle (made + 1) r (failMsg (made + 1) e, st.2)
      | .parsed _ reason =>
          runReasons oracle (made + 1) r
            ((if reason ≠ "" then reason else "not in whitelist"),
             (if reason ≠ "" then reason else "not in whitelist"))

/-- Delays slept during a full run of `r` attempts following `made`
earlier ones: `base·(made+1), …, base·(made+r-1)`. -/
def sleepsFrom (base : ℚ) (made r : Nat) : List ℚ :=
  (List.range (r - 1)).map (fun i : Nat => base * ((made : ℚ) + 1 + (i : ℚ)))

/-- Concrete oracle whose second attempt is the first confident one. -/
def llmOracleW : Nat → AttemptRes :=
  fun k => if k = 2 then AttemptRes.parsed (some "CARGO003") "электроника"
           else AttemptRes.exn "Timeout"

/-- Concrete oracle that always raises. -/
def llmOracleFail : Nat → AttemptRes := fun _ => AttemptRes.exn "Timeout"

/-- Concrete oracle whose single parsed answer is uncertain but whose
rationale happens to contain the word "attempt". -/
def llmOracleKw : Nat → AttemptRes :=
  fun _ => AttemptRes.parsed none "attempt aborted"

/-! ## Field extractors (`services/dialog_service/app/main.py` lines 260–343) -/

/-- The regex class `[\d\s]`. -/
def isDigitOrSpace (c : Char) : Bool := c.isDigit || isPySpace c

/-- Numeric value of `intpart[.fracpart]` as an exact rational. -/
def ratOfParts (ds fs : List Char) : ℚ :=
  (natOfDigits ds : ℚ) + (natOfDigits fs : ℚ) / ((10 : ℚ) ^ fs.length)

/-- Python `int()` on a number: truncation toward zero. -/
def pyIntTrunc (q : ℚ) : Int := if 0 ≤ q then Rat.floor q else -(Rat.floor (-q))

/-- Match of the regex `(\d+(?:\.\d+)?)\s*(млн|миллион|million)` at
the current position, returning the numeric value of group 1.  The
maximal-munch digit runs are exact here: shortening `\d+` or the
fraction leaves a digit in front of `\s*(млн|…)`, which can never
match, and dropping a present fraction leaves a dot there, so the
backtracking of Python `re` changes nothing. -/
def matchMillionAt (l : List Char) : Option ℚ :=
  let ds := l.takeWhile Char.isDigit
  if ds.isEmpty then none
  else
    let r1 := l.drop ds.length
    let fs := match r1 with
      | '.' :: rest => rest.takeWhile Char.isDigit
      | _ => []
    let r2 := if fs.isEmpty then r1 else r1.drop (fs.length + 1)
    let r3 := r2.dropWhile isPySpace
    if isPre "млн".data r3 || isPre "миллион".data r3 || isPre "million".data r3 then
      some (ratOfParts ds fs)
    else none

/-- `re.search` for the million pattern: leftmost matching position. -/
def millionSearch : List Char → Option ℚ
  | [] => none
  | c :: t =>
    match matchMillionAt (c :: t) with
    | some v => some v
    | none => millionSearch t

/-- The regex boundary `\b` between a last consumed character and the
following character (`none` = end of input). -/
def bbOk (lastc : Char) (next : Option Char) : Bool :=
  isWordChar lastc != (match next with | some c => isWordChar c | none => false)

/-- Greedy backtracking for the `{5,}` run of `\b(\d[\d\s]{5,})\b`:
try the run length `l`, `l-1`, …, `5` until the trailing `\b` holds. -/
def pickLen (run afterRun : List Char) : Nat → Option Nat
  | 0 => none
  | (l + 1) =>
    if l + 1 < 5 then none
    else
      match (run.take (l + 1)).getLast? with
      | none => none
      | some lastc =>
        if bbOk lastc ((run.drop (l + 1) ++ afterRun).head?) then some (l + 1)
        else pickLen run afterRun l

/-- Match of `\b(\d[\d\s]{5,})\b` at the current position;
`prevIsWord` says whether a word character precedes (for the leading
`\b`).  Returns the numeric value of the digits of group 1. -/
def matchBareAt (prevIsWord : Bool) (l : List Char) : Option Nat :=
  match l with
  | [] => none
  | c :: rest =>
    if !prevIsWord && c.isDigit then
      let run := rest.takeWhile isDigitOrSpace
      let afterRun := rest.drop run.length
      match pickLen run afterRun run.length with
      | some len => some (natOfDigits ((c :: run.take len).filter Char.isDigit))
      | none => none
    else none

/-- `re.search` for the bare-digits pattern: leftmost matching
position, carrying whether the previous character is a word character. -/
def bareSearch : Bool → List Char → Option Nat
  | _, [] => none
  | prev, c :: t =>
    match matchBareAt prev (c :: t) with
    | some v => some v
    | none => bareSearch (isWordChar c) t

/-- `t = text.lower().replace(",", ".")` of `parse_sum_rub`. -/
def normalizeSum (text : String) : List Char :=
  (text.data.map pyLowerChar).map (fun c => if c = ',' then '.' else c)

/-- `parse_sum_rub` (main.py lines 260–273): a decimal number followed
by a million marker is scaled by 10^6 (float arithmetic modelled as
exact rationals) and truncated by `int()`; otherwise the bare-digits
pattern is searched in the original text and its digits parsed; the
`int(...)` there cannot fail, so the `except` branch is dead. -/
def parse_sum_rub (text : String) : Option Int :=
  match millionSearch (normalizeSum text) with
  | some v => some (pyIntTrunc (v * 1000000))
  | none =>
    match bareSearch false text.data with
    | some n => some (n : Int)
    | none => none

/-- `parse_condition` (main.py lines 275–283). -/
def parse_condition (text : String) : Option String :=
  let tl := pyStrip (pyLowerStr text)
  if pyIn "б/у" tl || pyIn "бу" tl || pyIn "подерж" tl then some "USED"
  else if pyIn "нов" tl then some "NEW"
  else if tl = "new" || tl = "used" then some (pyUpperStr tl)
  else none

/-- `FRANCHISE_OPTIONS` (main.py line 49). -/
def FRANCHISE_OPTIONS : List Int := [20000, 50000]

/-- `ROUTE_OPTIONS` (main.py line 50). -/
def ROUTE_OPTIONS : List String := ["РФ", "СНГ-РФ", "ВЕСЬ МИР-РФ"]

/-- `parse_franchise` (main.py lines 285–295). -/
def parse_franchise (text : String) : Option Int :=
  let tl := pyStrip (pyLowerStr text)
  if tl = "20000" || tl = "20" || tl = "20к" || tl = "20 к" || tl = "20 тыс" then some 20000
  else if tl = "50000" || tl = "50" || tl = "50к" || tl = "50 к" || tl = "50 тыс" then some 50000
  else if (pyIn "франш" tl || pyIn "франшиза" tl || pyIn "фр" tl) &&
      (pyIn "20" tl || pyIn "20000" tl || pyIn "20к" tl || pyIn "20 тыс" tl) then some 20000
  else if (pyIn "франш" tl || pyIn "франшиза" tl || pyIn "фр" tl) &&
      (pyIn "50" tl || pyIn "50000" tl || pyIn "50к" tl || pyIn "50 тыс" tl) then some 50000
  else none

/-- `parse_yes_no` (main.py lines 297–303). -/
def parse_yes_no (text : String) : Option Bool :=
  let tl := pyLowerStr (pyStrip text)
  if tl = "да" || tl = "yes" || tl = "y" || tl = "ок" || tl = "ага" || tl = "конечно" ||
      tl = "верно" || tl = "правильно" then some true
  else if tl = "нет" || tl = "no" || tl = "n" || tl = "неа" || tl = "неверно" then some false
  else none

/-- `parse_reefer` (main.py lines 305–314). -/
def parse_reefer (text : String) : Option Bool :=
  let tl := pyStrip (pyLowerStr text)
  match parse_yes_no text with
  | some b => some b
  | none =>
    if pyIn "без реф" tl || (pyIn "не" tl && (pyIn "реф" tl || pyIn "рефриж" tl)) then some false
    else if pyIn "реф" tl || pyIn "рефриж" tl || pyIn "холод" tl then some true
    else none

/-- `parse_route_zone` (main.py lines 316–326). -/
def parse_route_zone (text : String) : Option String :=
  let tl := pyStrip (pyLowerStr text)
  if pyIn "снг" tl then some "СНГ-РФ"
  else if pyIn "весь мир" tl then some "ВЕСЬ МИР-РФ"
  else if tl = "rf" || tl = "russia" || tl = "россия" || tl = "рф" then some "РФ"
  else if (pyStrip text) ∈ ROUTE_OPTIONS then some (pyStrip text)
  else none

/-- `parse_manual_cargo_choice` (main.py lines 328–336). -/
def parse_manual_cargo_choice (text : String) : Option String :=
  let tl := pyUpperStr (pyStrip text)
  if (lookupS CARGO_CLASSES tl).isSome then some tl
  else
    let st := pyStrip text
    if 1 ≤ st.data.length && st.data.length ≤ 2 && st.data.all Char.isDigit then
      let n := natOfDigits st.data
      if 1 ≤ n && n ≤ CARGO_ORDER.length then CARGO_ORDER.get? (n - 1)
      else none
    else none

/-- Numbered menu lines of `manual_cargo_choice_text`. -/
def manualChoiceLines : List (String × String) → Nat → List String
  | [], _ => []
  | (_, name) :: rest, i => (toString i ++ ") " ++ name) :: manualChoiceLines rest (i + 1)

/-- `manual_cargo_choice_text` (main.py lines 338–343). -/
def manual_cargo_choice_text : String :=
  String.intercalate "\n"
    (["Не смог автоматически определить категорию. Выберите номер категории из списка:"] ++
     manualChoiceLines CARGO_CLASSES 1 ++ ["Напишите номер (1–16)."])

/-- `is_intent_consult` (main.py lines 444–446). -/
def is_intent_consult (text : String) : Bool :=
  pyIn "консул" (pyLowerStr text) || pyIn "вопрос" (pyLowerStr text) ||
    pyIn "услов" (pyLowerStr text)

/-- `is_intent_buy` (main.py lines 448–450). -/
def is_intent_buy (text : String) : Bool :=
  pyIn "оформ" (pyLowerStr text) || pyIn "страхов" (pyLowerStr text) ||
    pyIn "полис" (pyLowerStr text) || pyIn "рассч" (pyLowerStr text) ||
    pyIn "куп" (pyLowerStr text)

/-! ## Dialog state machine (`services/dialog_service/app/main.py` /chat) -/

/-- The `data` dict of a session (main.py lines 233–241). -/
structure SessionData where
  sum_insured_rub : Option Int
  cargo_desc : Option String
  cargo_class_id : Option String
  condition : Option String
  franchise_rub : Option Int
  is_reefer : Option Bool
  route_zone : Option String
  deriving DecidableEq

/-- The `pending` dict of a session (main.py lines 242–245). -/
structure PendingData where
  cargo_proposed : Option (String × String)
  cargo_retry_count : Nat
  deriving DecidableEq

/-- One conversation session (expiry is handled outside the turn
handler and omitted). -/
structure Session where
  stage : String
  intent : Option String
  data : SessionData
  pending : PendingData
  deriving DecidableEq

/-- `quote_missing` (main.py lines 452–457): the six required fields in
fixed order. -/
def quote_missing (d : SessionData) : List String :=
  (if d.sum_insured_rub.isNone then ["sum_insured_rub"] else []) ++
  (if d.cargo_class_id.isNone then ["cargo_class_id"] else []) ++
  (if d.condition.isNone then ["condition"] else []) ++
  (if d.franchise_rub.isNone then ["franchise_rub"] else []) ++
  (if d.is_reefer.isNone then ["is_reefer"] else []) ++
  (if d.route_zone.isNone then ["route_zone"] else [])

/-- `next_question` (main.py lines 459–472). -/
def next_question (stage : String) : String :=
  if stage = "quote_sum" then
    "Какая страховая сумма по перевозке (в рублях)? Например: 5 000 000 или 5 млн."
  else if stage = "quote_cargo" then
    "Какой груз перевозите? Напишите одним-двумя словами (например: молоко, микроволновки, шприцы, станок ЧПУ)."
  else if stage = "quote_condition" then
    "Груз новый или б/у? (NEW = новый, USED = б/у)"
  else if stage = "quote_franchise" then
    "Выберите франшизу: 20 000 ₽ или 50 000 ₽?"
  else if stage = "quote_reefer" then
    "Нужен рефрижератор? (да/нет)"
  else if stage = "quote_route" then
    "Выберите зону маршрута: РФ / СНГ-РФ / ВЕСЬ МИР-РФ"
  else "Уточните, пожалуйста."

/-- `WELCOME_TEXT` (main.py lines 437–442). -/
def WELCOME_TEXT : String :=
  "Здравствуйте! Я ассистент по страхованию грузоперевозок.\nМогу проконсультировать по продукту и за несколько минут рассчитать стоимость страховки по вашей перевозке.\nЯ задам несколько вопросов и после этого рассчитаю стоимость через тарифный сервис.\nЧто выбираете: **консультация** или **оформить страховку**?"

/-- The JSON payload posted to the tariff engine (main.py lines
676–683). -/
structure TariffPayload where
  cargo_class_id : String
  sum_insured_rub : Int
  condition : String
  franchise_rub : Int
  is_reefer : Bool
  route_zone : String
  deriving DecidableEq

/-- The fields of the tariff engine response that the dialog service
reads (`decision`, `premium_rub`, `reasons`, each via `.get`). -/
structure EngineResult where
  decision : Option String
  premium_rub : Option Int
  reasons : List String
  deriving DecidableEq

/-- Python f-string rendering of an optional int (None prints as
"None"). -/
def showOptInt : Option Int → String
  | some n => toString n
  | none => "None"

/-- The payload built in the `quote_route` branch; the fields are all
set when it is built (guarded by `quote_missing`). -/
def mkPayload (d : SessionData) : TariffPayload :=
  { cargo_class_id := d.cargo_class_id.getD ""
    sum_insured_rub := d.sum_insured_rub.getD 0
    condition := d.condition.getD ""
    franchise_rub := d.franchise_rub.getD 0
    is_reefer := d.is_reefer.getD false
    route_zone := d.route_zone.getD "" }

/-- Stage `welcome` (main.py lines 529–531). -/
def hWelcome (s : Session) : Option (Session × String) :=
  some ({ s with stage := "intent_select" }, WELCOME_TEXT)

/-- Stage `intent_select` (main.py lines 534–543). -/
def hIntentSelect (s : Session) (text : String) : Option (Session × String) :=
  if is_intent_consult text then
    some ({ s with intent := some "consult", stage := "consult" },
      "Хорошо. Сформулируйте ваш вопрос по страхованию грузоперевозок — я отвечу.")
  else if is_intent_buy text then
    some ({ s with intent := some "buy", stage := "quote_sum" },
      "Отлично, оформим страховку. " ++ next_question "quote_sum")
  else
    some (s, "Пожалуйста, напишите: **консультация** или **оформить страховку**.")

/-- Stage `consult` (main.py lines 546–555). -/
def hConsult (s : Session) (text : String) : Option (Session × String) :=
  if is_intent_buy text then
    some ({ s with intent := some "buy", stage := "quote_sum" },
      "Понял. Давайте оформим. " ++ next_question "quote_sum")
  else
    some (s,
      "Понял вопрос. Сейчас я могу подсказать общий порядок и требования.\nЕсли хотите — уточните: какой груз, какая сумма и зона перевозки.\nЕсли нужно сразу рассчитать стоимость — напишите: **оформить страховку**.")

/-- Stage `cargo_confirm` (main.py lines 562–575); only dispatched when
a proposal is pending. -/
def hCargoConfirm (s : Session) (text : String) : Option (Session × String) :=
  match s.pending.cargo_proposed with
  | none => none
  | some (pid, _) =>
    match parse_yes_no text with
    | some true =>
      some ({ s with
                stage := "quote_condition",
                data := { s.data with cargo_class_id := some pid },
                pending := { s.pending with cargo_proposed := none } },
        next_question "quote_condition")
    | some false =>
      some ({ s with
                stage := "quote_cargo",
                data := { s.data with cargo_class_id := none, cargo_desc := none },
                pending := { s.pending with cargo_proposed := none } },
        "Ок. Тогда уточните, пожалуйста, какой груз перевозите (1–2 слова)?")
    | none => some (s, "Подтвердите, пожалуйста: **да** или **нет**.")

/-- Stage `cargo_retry` (main.py lines 578–595): increment the retry
counter, re-classify the stored description; ok → `cargo_confirm`
(whatever the counter), error within budget → stay, anything else →
`cargo_choose`.  `none` models the (unreachable) KeyError on a
non-whitelist ok id. -/
def hCargoRetry (retryMax : Nat) (classify : String → Option String × LLMStatus × String)
    (s : Session) : Option (Session × String) :=
  let k := s.pending.cargo_retry_count + 1
  let s1 := { s with pending := { s.pending with cargo_retry_count := k } }
  match classify (s.data.cargo_desc.getD "") with
  | (cido, st, _) =>
    match cido, st with
    | some c, .ok =>
      if c = "" then some ({ s1 with stage := "cargo_choose" }, manual_cargo_choice_text)
      else
        match lookupS CARGO_CLASSES c with
        | some name =>
          some ({ s1 with
                    stage := "cargo_confirm",
                    pending := { s1.pending with cargo_proposed := some (c, name) } },
            "Похоже, ваш груз относится к категории: «" ++ name ++ "». Верно? (да/нет)")
        | none => none
    | none, .ok => some ({ s1 with stage := "cargo_choose" }, manual_cargo_choice_text)
    | _, .error =>
      if k ≤ retryMax then
        some (s1,
          "Секунду, уточняю категорию груза… сервис классификации временно отвечает нестабильно.\nПодождите 5–10 секунд и отправьте любое сообщение (например, «ок»), я попробую ещё раз.")
      else some ({ s1 with stage := "cargo_choose" }, manual_cargo_choice_text)
    | _, .uncertain => some ({ s1 with stage := "cargo_choose" }, manual_cargo_choice_text)

/-- Stage `cargo_choose` (main.py lines 598–604). -/
def hCargoChoose (s : Session) (text : String) : Option (Session × String) :=
  match parse_manual_cargo_choice text with
  | some c =>
    if c = "" then some (s, "Пожалуйста, введите номер категории (1–16).")
    else
      match lookupS CARGO_CLASSES c with
      | some name =>
        some ({ s with
                  stage := "quote_condition",
                  data := { s.data with cargo_class_id := some c } },
          "Принял категорию: «" ++ name ++ "».\n" ++ next_question "quote_condition")
      | none => none
  | none => some (s, "Пожалуйста, введите номер категории (1–16).")

/-- Stage `quote_sum` (main.py lines 607–613). -/
def hQuoteSum (s : Session) (text : String) : Option (Session × String) :=
  match parse_sum_rub text with
  | none => some (s, "Не понял сумму. Укажите, пожалуйста, например: 5 000 000 или 5 млн.")
  | some v =>
    some ({ s with
              stage := "quote_cargo",
              data := { s.data with sum_insured_rub := some v } },
      "Спасибо. " ++ next_question "quote_cargo")

/-- Stage `quote_cargo` (main.py lines 616–635): store the raw text as
description, reset the retry counter, classify. -/
def hQuoteCargo (classify : String → Option String × LLMStatus × String)
    (s : Session) (text : String) : Option (Session × String) :=
  let s1 := { s with
                data := { s.data with cargo_desc := some text },
                pending := { s.pending with cargo_retry_count := 0 } }
  match classify text with
  | (cido, st, _) =>
    match cido, st with
    | some c, .ok =>
      if c = "" then some ({ s1 with stage := "cargo_choose" }, manual_cargo_choice_text)
      else
        match lookupS CARGO_CLASSES c with
        | some name =>
          some ({ s1 with
                    stage := "cargo_confirm",
                    pending := { s1.pending with cargo_proposed := some (c, name) } },
            "Похоже, ваш груз относится к категории: «" ++ name ++ "». Верно? (да/нет)")
        | none => none
    | none, .ok => some ({ s1 with stage := "cargo_choose" }, manual_cargo_choice_text)
    | _, .error =>
      some ({ s1 with stage := "cargo_retry" },
        "Секунду, уточняю категорию груза…\nПодождите 5–10 секунд и отправьте любое сообщение (например, «ок»), я попробую ещё раз.")
    | _, .uncertain => some ({ s1 with stage := "cargo_choose" }, manual_cargo_choice_text)

/-- Stage `quote_condition` (main.py lines 638–644). -/
def hQuoteCondition (s : Session) (text : String) : Option (Session × String) :=
  match parse_condition text with
  | none => some (s, "Укажите: NEW (новый) или USED (б/у).")
  | some cond =>
    some ({ s with
              stage := "quote_franchise",
              data := { s.data with condition := some cond } },
      next_question "quote_franchise")

/-- Stage `quote_franchise` (main.py lines 647–653). -/
def hQuoteFranchise (s : Session) (text : String) : Option (Session × String) :=
  match parse_franchise text with
  | none => some (s, "Выберите франшизу строго из списка: 20 000 ₽ или 50 000 ₽.")
  | some fr =>
    if fr ∈ FRANCHISE_OPTIONS then
      some ({ s with
                stage := "quote_reefer",
                data := { s.data with franchise_rub := some fr } },
        next_question "quote_reefer")
    else some (s, "Выберите франшизу строго из списка: 20 000 ₽ или 50 000 ₽.")

/-- Stage `quote_reefer` (main.py lines 656–662). -/
def hQuoteReefer (s : Session) (text : String) : Option (Session × String) :=
  match parse_reefer text with
  | none => some (s, "Нужен рефрижератор? Ответьте: да или нет.")
  | some rr =>
    some ({ s with
              stage := "quote_route",
              data := { s.data with is_reefer := some rr } },
      next_question "quote_route")

/-- Stage `quote_route` (main.py lines 665–695): store the zone,
defensively re-check completeness (loop back to `quote_sum` if a field
is unset), otherwise call the tariff engine; AUTO_OK → `quoted` with
the premium in the reply, otherwise → `refer` with the joined reasons.
`none` models the HTTPException raised on an engine failure. -/
def hQuoteRoute (engine : TariffPayload → Option EngineResult)
    (s : Session) (text : String) : Option (Session × String) :=
  match parse_route_zone text with
  | none => some (s, "Выберите зону строго из списка: РФ / СНГ-РФ / ВЕСЬ МИР-РФ")
  | some rz =>
    if rz ∈ ROUTE_OPTIONS then
      let d1 := { s.data with route_zone := some rz }
      if quote_missing d1 = [] then
        match engine (mkPayload d1) with
        | none => none
        | some res =>
          if res.decision.getD "REFER" = "AUTO_OK" then
            some ({ s with stage := "quoted", data := d1 },
              "Стоимость страховки: " ++ showOptInt res.premium_rub ++
                " ₽.\nСогласны оформить? (да/нет)")
          else
            some ({ s with stage := "refer", data := d1 },
              "Онлайн-оформление недоступно: " ++
                (if String.intercalate ", " res.reasons = "" then "нужна проверка"
                 else String.intercalate ", " res.reasons) ++
                ". Хотите передать заявку менеджеру? (да/нет)")
      else
        some ({ s with stage := "quote_sum", data := d1 },
          "Не хватает данных для расчёта. " ++ next_question "quote_sum")
    else some (s, "Выберите зону строго из списка: РФ / СНГ-РФ / ВЕСЬ МИР-РФ")

/-- Stage `quoted` (main.py lines 698–706). -/
def hQuoted (s : Session) (text : String) : Option (Session × String) :=
  match parse_yes_no text with
  | some true =>
    some ({ s with stage := "next_phase" },
      "Отлично. Следующий шаг — ввод контактных данных и выпуск полиса. Эту фазу подключим дальше.")
  | some false =>
    some ({ s with stage := "intent_select" },
      "Ок. Хотите консультацию или рассчитать другую перевозку? (консультация / оформить страховку)")
  | none => some (s, "Ответьте, пожалуйста: да или нет.")

/-- Stage `refer` (main.py lines 709–717). -/
def hRefer (s : Session) (text : String) : Option (Session × String) :=
  match parse_yes_no text with
  | some true =>
    some ({ s with stage := "handoff" },
      "Принято. (MVP) Передача менеджеру будет подключена следующим шагом.")
  | some false =>
    some ({ s with stage := "intent_select" },
      "Ок. Хотите консультацию или рассчитать другую перевозку? (консультация / оформить страховку)")
  | none => some (s, "Ответьте, пожалуйста: да или нет.")

/-- One turn of the `/chat` handler (main.py lines 477–721), dispatched
exactly in source order; the classifier and the tariff engine enter as
oracles, `retryMax` is the `CARGO_RETRY_MAX` setting, and `none` models
a raised exception (engine failure or the defensive KeyErrors). -/
def chat (retryMax : Nat) (classify : String → Option String × LLMStatus × String)
    (engine : TariffPayload → Option EngineResult) (s : Session) (msg : String) :
    Option (Session × String) :=
  let text := pyStrip msg
  if s.stage = "welcome" then hWelcome s
  else if s.stage = "intent_select" then hIntentSelect s text
  else if s.stage = "consult" then hConsult s text
  else if s.stage = "cargo_confirm" ∧ (s.pending.cargo_proposed).isSome then hCargoConfirm s text
  else if s.stage = "cargo_retry" then hCargoRetry retryMax classify s
  else if s.stage = "cargo_choose" then hCargoChoose s text
  else if s.stage = "quote_sum" then hQuoteSum s text
  else if s.stage = "quote_cargo" then hQuoteCargo classify s text
  else if s.stage = "quote_condition" then hQuoteCondition s text
  else if s.stage = "quote_franchise" then hQuoteFranchise s text
  else if s.stage = "quote_reefer" then hQuoteReefer s text
  else if s.stage = "quote_route" then hQuoteRoute engine s text
  else if s.stage = "quoted" then hQuoted s text
  else if s.stage = "refer" then hRefer s text
  else some ({ s with stage := "intent_select" },
    "Давайте начнём: вам нужна консультация или оформить страховку?")

/-- All-unset collected fields. -/
def emptyData : SessionData := ⟨none, none, none, none, none, none, none⟩

/-- Concrete session sitting in `cargo_retry` with the counter already
at the default `CARGO_RETRY_MAX = 2`. -/
def sessionRetry : Session :=
  { stage := "cargo_retry", intent := some "buy",
    data := { emptyData with sum_insured_rub := some 5000000, cargo_desc := some "техника" },
    pending := { cargo_proposed := none, cargo_retry_count := 2 } }

/-- Classifier oracle that always answers ok with CARGO003. -/
def classifyOk : String → Option String × LLMStatus × String :=
  fun _ => (some "CARGO003", LLMStatus.ok, "электроника")

/-- Engine oracle that always fails (never consulted in the
counterexamples that use it). -/
def engineNone : TariffPayload → Option EngineResult := fun _ => none

/-- Concrete session at `quote_route` with the other five fields set. -/
def sessionRoute : Session :=
  { stage := "quote_route", intent := some "buy",
    data := { sum_insured_rub := some 5000000, cargo_desc := some "техника",
              cargo_class_id := some "CARGO003", condition := some "NEW",
              franchise_rub := some 20000, is_reefer := some false, route_zone := none },
    pending := { cargo_proposed := none, cargo_retry_count := 0 } }

/-- Engine oracle answering AUTO_OK with premium 12500. -/
def engineOkW : TariffPayload → Option EngineResult :=
  fun _ => some { decision := some "AUTO_OK", premium_rub := some 12500, reasons := [] }

/-- Classifier oracle for turns that must not classify. -/
def classifyNone : String → Option String × LLMStatus × String :=
  fun _ => (none, LLMStatus.error, "LLM not configured")

/-- Concrete session at `cargo_confirm` with a pending proposal. -/
def sessionConfirm : Session :=
  { stage := "cargo_confirm", intent := some "buy",
    data := { emptyData with sum_insured_rub := some 5000000, cargo_desc := some "техника" },
    pending :=
      { cargo_proposed := some ("CARGO003",
          "Бытовая электротехника, электронная аппаратура и офисная (организационная) техника")
        cargo_retry_count := 0 } }

/-- Expected post-state of the affirmative confirm turn on
`sessionConfirm`. -/
def sessionConfirmYes : Session :=
  { stage := "quote_condition", intent := some "buy",
    data := { emptyData with
                sum_insured_rub := some 5000000,
                cargo_desc := some "техника",
                cargo_class_id := some "CARGO003" },
    pending := { cargo_proposed := none, cargo_retry_count := 0 } }

/-- The ten ASCII digit characters. -/
def digitChars : List Char := ['0', '1', '2', '3', '4', '5', '6', '7', '8', '9']

/-! ## Helper lemmas -/

theorem ratFloor_eq (q : ℚ) : Rat.floor q = ⌊q⌋ := by
  rw [Rat.floor_def', Rat.floor_def]

theorem pyCeil_eq (q : ℚ) : pyCeil q = ⌈q⌉ := by
  rw [pyCeil, ratFloor_eq, Int.floor_neg, neg_neg]

theorem round_money_mult (amount : ℚ) (step : Int) (mode : String) :
    ∃ n : ℤ, round_money amount step mode = (n : ℚ) * ((step : ℤ) : ℚ) := by
  unfold round_money
  by_cases h1 : step = 1
  · rw [if_pos h1]
    by_cases hm : mode = "CEIL"
    · exact ⟨pyCeil amount, by rw [if_pos hm, h1]; push_cast; ring⟩
    · exact ⟨pyRoundHalfUp amount, by rw [if_neg hm, h1]; push_cast; ring⟩
  · rw [if_neg h1]
    by_cases hm : mode = "CEIL"
    · exact ⟨pyCeil (amount / (step : ℚ)), by rw [if_pos hm]⟩
    · exact ⟨pyRoundHalfUp (amount / (step : ℚ)), by rw [if_neg hm]⟩

/-! ## C1: `assess` short-circuits in the fixed check order -/

/-- C1: `assess` is a pure function whose result is fully determined by
the first failing check in the fixed order cargo-whitelist, condition,
auto-limit, franchise, route zone, reefer: that check alone gives the
decision (DECLINE with reason CARGO_NOT_ELIGIBLE for the cargo check,
REFER with the single corresponding reason for the other five), and if
no check fails the result is AUTO_OK with an empty reason list.  In
particular a cargo class absent from `base_rates` always yields DECLINE
whatever the other fields are. -/
theorem assess_short_circuit (cfg : TariffConfig) (f : RatingFacts) :
    assess cfg f = ((firstFailing cfg f).map checkOutcome).getD ("AUTO_OK", []) := by
  unfold assess firstFailing checkOrder
  cases h1 : lookupS cfg.base_rates f.cargo_class_id with
  | none => simp [List.find?, checkFails, h1, checkOutcome]
  | some byCond =>
    cases h2 : lookupS byCond (pyUpperStr f.condition) with
    | none => simp [List.find?, checkFails, h1, h2, checkOutcome]
    | some r =>
      by_cases h3 : cfg.auto_limit_rub < f.sum_insured_rub
      · simp [List.find?, checkFails, h1, h2, h3, checkOutcome]
      · cases h4 : lookupS cfg.k_franchise (intStr f.franchise_rub) with
        | none => simp [List.find?, checkFails, h1, h2, h3, h4, checkOutcome]
        | some k1 =>
          cases h5 : lookupS cfg.k_route f.route_zone with
          | none => simp [List.find?, checkFails, h1, h2, h3, h4, h5, checkOutcome]
          | some k2 =>
            cases h6 : lookupS cfg.k_reefer (boolStr f.is_reefer) with
            | none => simp [List.find?, checkFails, h1, h2, h3, h4, h5, h6, checkOutcome]
            | some k3 => simp [List.find?, checkFails, h1, h2, h3, h4, h5, h6]

/-! ## C3: after AUTO_OK every lookup of `quote` succeeds -/

/-- C3: whenever `assess` returns AUTO_OK, all four map lookups in
`quote` succeed, so `quote` raises no KeyError (in the model: it
returns `some`), and the defensive KeyError handler of the `/quote`
endpoint is unreachable when `assess` is consulted first. -/
theorem assess_autoOk_quote_some (cfg : TariffConfig) (f : RatingFacts)
    (h : (assess cfg f).1 = "AUTO_OK") : (quote cfg f).isSome := by
  cases h1 : lookupS cfg.base_rates f.cargo_class_id with
  | none => simp [assess, h1] at h
  | some byCond =>
    cases h2 : lookupS byCond (pyUpperStr f.condition) with
    | none => simp [assess, h1, h2] at h
    | some r =>
      by_cases h3 : cfg.auto_limit_rub < f.sum_insured_rub
      · simp [assess, h1, h2, h3] at h
      · cases h4 : lookupS cfg.k_franchise (intStr f.franchise_rub) with
        | none => simp [assess, h1, h2, h3, h4] at h
        | some k1 =>
          cases h5 : lookupS cfg.k_route f.route_zone with
          | none => simp [assess, h1, h2, h3, h4, h5] at h
          | some k2 =>
            cases h6 : lookupS cfg.k_reefer (boolStr f.is_reefer) with
            | none => simp [assess, h1, h2, h3, h4, h5, h6] at h
            | some k3 =>
              simp only [quote, quoteRaw, h1, h2, h4, h5, h6]
              split <;> simp

/-- Witness for C3 at a concrete table and facts. -/
theorem assess_autoOk_quote_some_w :
    (assess cfgMinStep factsMinStep).1 = "AUTO_OK" ∧ (quote cfgMinStep factsMinStep).isSome :=
  ⟨by decide, assess_autoOk_quote_some cfgMinStep factsMinStep (by decide)⟩

/-! ## C2: premium bounds and step multiplicity -/

theorem quoteRaw_minStep_eval : quoteRaw cfgMinStep factsMinStep = some 1 := by
  have hN : pyUpperStr "NEW" = "NEW" := by decide
  have hS : intStr 20000 = "20000" := by decide
  have hB : boolStr false = "false" := by decide
  simp only [quoteRaw, cfgMinStep, factsMinStep, lookupS, hN, hS, hB]
  norm_num [lookupS]

theorem quote_minStep_eval : quote cfgMinStep factsMinStep = some (50, true) := by
  have hfl : Rat.floor ((1 : ℚ) / (((100 : ℤ) : ℚ)) + 1 / 2) = 0 := by
    rw [ratFloor_eq, Int.floor_eq_zero_iff, Set.mem_Ico]
    constructor <;> norm_num
  have hrm : round_money 1 (100 : ℤ) "HALF_UP" = 0 := by
    unfold round_money pyRoundHalfUp
    rw [if_neg (by decide), if_neg (by decide), if_pos (by positivity), hfl]
    norm_num
  unfold quote
  rw [quoteRaw_minStep_eval]
  dsimp only [cfgMinStep]
  rw [hrm, if_pos (by norm_num)]

/-- C2 counterexample: on `cfgMinStep` (minimum premium 50, rounding
step 100) the facts `factsMinStep` pass `assess` with AUTO_OK, yet the
final premium is the clamped minimum 50, which is not a multiple of the
rounding step, refuting the claim that the premium is always an exact
multiple of `rounding_step_rub`. -/
theorem quote_step_multiple_cex :
    (assess cfgMinStep factsMinStep).1 = "AUTO_OK" ∧
    quote cfgMinStep factsMinStep = some (50, true) ∧
    ¬ (∃ n : ℤ, (50 : ℚ) = (n : ℚ) * ((cfgMinStep.rounding_step_rub : ℤ) : ℚ)) := by
  refine ⟨by decide, quote_minStep_eval, ?_⟩
  rintro ⟨n, hn⟩
  have hstep : ((cfgMinStep.rounding_step_rub : ℤ) : ℚ) = 100 := by norm_num [cfgMinStep]
  rw [hstep] at hn
  have h2 : ((2 * n : ℤ) : ℚ) = 1 := by push_cast; linarith
  have h3 : (2 * n : ℤ) = 1 := by exact_mod_cast h2
  omega

/-- C2 (amended): for every tariff config with a non-negative minimum
premium and facts passing `assess` with AUTO_OK, the quoted premium is
non-negative and never below `min_premium_rub`; it is an exact multiple
of `rounding_step_rub` whenever the minimum-premium clamp was not
applied (when the clamp fires the premium equals `min_premium_rub`,
which need not be a multiple of the step); and `min_premium_applied` is
true iff the step-rounded raw premium was below `min_premium_rub`. -/
theorem quote_bounds (cfg : TariffConfig) (f : RatingFacts) (p : ℚ) (a : Bool)
    (hmin : 0 ≤ cfg.min_premium_rub)
    (hok : (assess cfg f).1 = "AUTO_OK")
    (hq : quote cfg f = some (p, a)) :
    0 ≤ p ∧ cfg.min_premium_rub ≤ p ∧
      (a = false → ∃ n : ℤ, p = (n : ℚ) * ((cfg.rounding_step_rub : ℤ) : ℚ)) ∧
      (a = true ↔ ∀ raw, quoteRaw cfg f = some raw →
        round_money raw cfg.rounding_step_rub cfg.rounding_mode < cfg.min_premium_rub) := by
  unfold quote at hq
  cases hraw : quoteRaw cfg f with
  | none => rw [hraw] at hq; simp at hq
  | some raw =>
    rw [hraw] at hq
    dsimp only at hq
    by_cases hlt : round_money raw cfg.rounding_step_rub cfg.rounding_mode < cfg.min_premium_rub
    · rw [if_pos hlt] at hq
      simp only [Option.some.injEq, Prod.mk.injEq] at hq
      obtain ⟨hp, ha⟩ := hq
      subst hp
      refine ⟨hmin, le_refl _, ?_, ?_⟩
      · intro hfa; exact absurd (ha.trans hfa) (by decide)
      · constructor
        · intro _ raw2 hr2
          have hee := Option.some.inj hr2
          rw [← hee]
          exact hlt
        · intro _; exact ha.symm
    · rw [if_neg hlt] at hq
      simp only [Option.some.injEq, Prod.mk.injEq] at hq
      obtain ⟨hp, ha⟩ := hq
      have hge : cfg.min_premium_rub ≤ p := hp ▸ (not_lt.mp hlt)
      refine ⟨le_trans hmin hge, hge, ?_, ?_⟩
      · intro _
        obtain ⟨n, hn⟩ := round_money_mult raw cfg.rounding_step_rub cfg.rounding_mode
        exact ⟨n, by rw [← hp, hn]⟩
      · constructor
        · intro hat; exact absurd (ha.trans hat) (by decide)
        · intro hall; exact absurd (hall raw rfl) hlt

/-- Witness for C2 (amended) at `cfgMinStep`/`factsMinStep`. -/
theorem quote_bounds_w :
    0 ≤ (50 : ℚ) ∧ cfgMinStep.min_premium_rub ≤ (50 : ℚ) ∧
      (true = false → ∃ n : ℤ, (50 : ℚ) = (n : ℚ) * ((cfgMinStep.rounding_step_rub : ℤ) : ℚ)) ∧
      (true = true ↔ ∀ raw, quoteRaw cfgMinStep factsMinStep = some raw →
        round_money raw cfgMinStep.rounding_step_rub cfgMinStep.rounding_mode <
          cfgMinStep.min_premium_rub) :=
  quote_bounds cfgMinStep factsMinStep 50 true (by decide) (by decide) quote_minStep_eval


/-! ## Adapter lemmas -/

theorem isPre_self_append (n rest : List Char) : isPre n (n ++ rest) = true := by
  induction n with
  | nil => rfl
  | cons a as ih => simp [isPre, ih]

theorem hasSeq_here (n suf : List Char) : hasSeq n (n ++ suf) = true := by
  cases n with
  | nil => cases suf <;> simp [hasSeq, isPre]
  | cons a as =>
    have h := isPre_self_append (a :: as) suf
    simp only [List.cons_append] at h ⊢
    simp [hasSeq, h]

theorem hasSeq_extend (n pre rest : List Char) (h : hasSeq n rest = true) :
    hasSeq n (pre ++ rest) = true := by
  induction pre with
  | nil => simpa using h
  | cons c t ih => simp [hasSeq, ih]

theorem hasSeq_of_parts (n hay pre suf : List Char) (h : hay = pre ++ (n ++ suf)) :
    hasSeq n hay = true := by
  subst h
  exact hasSeq_extend _ _ _ (hasSeq_here _ _)

theorem kwCheck_failMsg (k : Nat) (e : String) : kwCheck (failMsg k e) = true := by
  have hlit1 : "LLM attempt ".data.map pyLowerChar = "llm attempt ".data := by decide
  have hlit2 : " failed: ".data.map pyLowerChar = ([' '] ++ ("failed".data ++ ": ".data)) := by decide
  have h : pyIn "failed" (pyLowerStr (failMsg k e)) = true := by
    unfold pyIn pyLowerStr failMsg
    apply hasSeq_of_parts _ _ (("llm attempt ".data ++ (toString k).data.map pyLowerChar) ++ [' '])
      (": ".data ++ e.data.map pyLowerChar)
    simp only [String.data_append, List.map_append, hlit1, hlit2]
    simp [List.append_assoc]
  simp [kwCheck, h]

theorem sleepsFrom_zero (base : ℚ) (made : Nat) : sleepsFrom base made 0 = [] := rfl

theorem sleepsFrom_one (base : ℚ) (made : Nat) : sleepsFrom base made 1 = [] := rfl

theorem sleepsFrom_cons (base : ℚ) (made n : Nat) (hn : 1 ≤ n) :
    sleepsFrom base made (n + 1) = (base * ((made : ℚ) + 1)) :: sleepsFrom base (made + 1) n := by
  unfold sleepsFrom
  have h1 : n + 1 - 1 = (n - 1) + 1 := by omega
  rw [h1, List.range_succ_eq_map]
  simp only [List.map_cons, List.map_map]
  refine congrArg₂ List.cons ?_ ?_
  · push_cast; ring
  · apply List.map_congr_left
    intro i _
    simp only [Function.comp]
    push_cast
    ring

theorem notWl_ne (reason : String) : (if reason ≠ "" then reason else "not in whitelist") ≠ "" := by
  by_cases h : reason = ""
  · simp [h]
  · simp [h]

theorem llmGo_no_ok (oracle : Nat → AttemptRes) (base : ℚ) :
    ∀ (r made : Nat) (lastR lastU : String) (sl : List ℚ),
      (∀ k, made < k → k ≤ made + r → isOkA (oracle k) = false) →
      llmGo oracle base r made lastR lastU sl =
        (if kwCheck (runReasons oracle made r (lastR, lastU)).1
         then ⟨none, .error, (runReasons oracle made r (lastR, lastU)).1, made + r,
               sl ++ sleepsFrom base made r⟩
         else ⟨none, .uncertain,
               (if (runReasons oracle made r (lastR, lastU)).2 ≠ ""
                then (runReasons oracle made r (lastR, lastU)).2
                else (runReasons oracle made r (lastR, lastU)).1), made + r,
               sl ++ sleepsFrom base made r⟩) := by
  intro r
  induction r with
  | zero =>
    intro made lastR lastU sl _
    simp [llmGo, runReasons, sleepsFrom]
  | succ n ih =>
    intro made lastR lastU sl h
    have h1 : isOkA (oracle (made + 1)) = false := h (made + 1) (by omega) (by omega)
    have hsh : ∀ k, made + 1 < k → k ≤ made + 1 + n → isOkA (oracle k) = false := by
      intro k hk1 hk2; exact h k (by omega) (by omega)
    have harith : made + 1 + n = made + (n + 1) := by omega
    cases ho : oracle (made + 1) with
    | exn e =>
      by_cases hn : n = 0
      · subst hn
        show llmGo oracle base 1 made lastR lastU sl = _
        rw [show llmGo oracle base 1 made lastR lastU sl =
              llmGo oracle base 0 (made + 1) (failMsg (made + 1) e) lastU sl by
            simp [llmGo, ho]]
        rw [ih (made + 1) _ _ _ hsh]
        simp [runReasons, ho, sleepsFrom]
      · have hn1 : 1 ≤ n := by omega
        rw [show llmGo oracle base (n + 1) made lastR lastU sl =
              llmGo oracle base n (made + 1) (failMsg (made + 1) e) lastU
                (sl ++ [base * ((made : ℚ) + 1)]) by
            simp [llmGo, ho, hn]]
        rw [ih (made + 1) _ _ _ hsh]
        rw [show runReasons oracle made (n + 1) (lastR, lastU) =
              runReasons oracle (made + 1) n (failMsg (made + 1) e, lastU) by
            simp [runReasons, ho]]
        rw [sleepsFrom_cons base made n hn1, harith]
        simp [List.append_assoc]
    | parsed cido reason =>
      have hnok : isOkA (AttemptRes.parsed cido reason) = false := by rw [← ho]; exact h1
      by_cases hn : n = 0
      · subst hn
        rw [show llmGo oracle base 1 made lastR lastU sl =
              llmGo oracle base 0 (made + 1)
                (if reason ≠ "" then reason else "not in whitelist")
                (if reason ≠ "" then reason else "not in whitelist") sl by
            simp [llmGo, ho, hnok]]
        rw [ih (made + 1) _ _ _ hsh]
        simp [runReasons, ho, sleepsFrom]
      · have hn1 : 1 ≤ n := by omega
        rw [show llmGo oracle base (n + 1) made lastR lastU sl =
              llmGo oracle base n (made + 1)
                (if reason ≠ "" then reason else "not in whitelist")
                (if reason ≠ "" then reason else "not in whitelist")
                (sl ++ [base * ((made : ℚ) + 1)]) by
            simp [llmGo, ho, hnok, hn]]
        rw [ih (made + 1) _ _ _ hsh]
        rw [show runReasons oracle made (n + 1) (lastR, lastU) =
              runReasons oracle (made + 1) n
                ((if reason ≠ "" then reason else "not in whitelist"),
                 (if reason ≠ "" then reason else "not in whitelist")) by
            simp [runReasons, ho]]
        rw [sleepsFrom_cons base made n hn1, harith]
        simp [List.append_assoc]

theorem llmGo_first_ok (oracle : Nat → AttemptRes) (base : ℚ) :
    ∀ (r made : Nat) (lastR lastU : String) (sl : List ℚ) (k : Nat) (c rs : String),
      made < k → k ≤ made + r →
      oracle k = AttemptRes.parsed (some c) rs →
      isOkA (AttemptRes.parsed (some c) rs) = true →
      (∀ j, made < j → j < k → isOkA (oracle j) = false) →
      llmGo oracle base r made lastR lastU sl =
        ⟨some c, .ok, rs, k, sl ++ sleepsFrom base made (k - made)⟩ := by
  intro r
  induction r with
  | zero => intro made lastR lastU sl k c rs hk1 hk2 _ _ _; omega
  | succ n ih =>
    intro made lastR lastU sl k c rs hk1 hk2 ho hok2 hprev
    by_cases hkm : k = made + 1
    · subst hkm
      rw [show llmGo oracle base (n + 1) made lastR lastU sl = ⟨some c, .ok, rs, made + 1, sl⟩ by
          simp [llmGo, ho, hok2]]
      rw [show made + 1 - made = 1 by omega, sleepsFrom_one]
      simp
    · have hj : isOkA (oracle (made + 1)) = false := hprev (made + 1) (by omega) (by omega)
      have hne : ¬ n = 0 := by omega
      have hrec : ∀ st1 st2 : String,
          llmGo oracle base n (made + 1) st1 st2 (sl ++ [base * ((made : ℚ) + 1)]) =
            ⟨some c, .ok, rs, k,
              (sl ++ [base * ((made : ℚ) + 1)]) ++ sleepsFrom base (made + 1) (k - (made + 1))⟩ := by
        intro st1 st2
        exact ih (made + 1) st1 st2 _ k c rs (by omega) (by omega) ho hok2
          (fun j h1 h2 => hprev j (by omega) h2)
      have hsl : (sl ++ [base * ((made : ℚ) + 1)]) ++ sleepsFrom base (made + 1) (k - (made + 1)) =
          sl ++ sleepsFrom base made (k - made) := by
        have h3 : 1 ≤ k - made - 1 := by omega
        have h4 : k - made = (k - made - 1) + 1 := by omega
        have h5 : k - (made + 1) = k - made - 1 := by omega
        rw [h4, sleepsFrom_cons base made _ h3, h5]
        simp [List.append_assoc]
      cases hatt : oracle (made + 1) with
      | exn e =>
        rw [show llmGo oracle base (n + 1) made lastR lastU sl =
            llmGo oracle base n (made + 1) (failMsg (made + 1) e) lastU
              (sl ++ [base * ((made : ℚ) + 1)]) by
          simp [llmGo, hatt, hne]]
        rw [hrec _ _, hsl]
      | parsed cido reason =>
        have hnok : isOkA (AttemptRes.parsed cido reason) = false := by rw [← hatt]; exact hj
        rw [show llmGo oracle base (n + 1) made lastR lastU sl =
            llmGo oracle base n (made + 1)
              (if reason ≠ "" then reason else "not in whitelist")
              (if reason ≠ "" then reason else "not in whitelist")
              (sl ++ [base * ((made : ℚ) + 1)]) by
          simp [llmGo, hatt, hnok, hne]]
        rw [hrec _ _, hsl]

theorem runReasons_last_exn (oracle : Nat → AttemptRes) :
    ∀ (r made : Nat) (st : String × String) (e : String), 1 ≤ r →
      oracle (made + r) = AttemptRes.exn e →
      (runReasons oracle made r st).1 = failMsg (made + r) e := by
  intro r
  induction r with
  | zero => intro _ _ _ h; omega
  | succ n ih =>
    intro made st e _ ho
    by_cases hn : n = 0
    · subst hn
      have ho1 : oracle (made + 1) = AttemptRes.exn e := by simpa using ho
      simp [runReasons, ho1]
    · have hδ : made + (n + 1) = (made + 1) + n := by omega
      have ho2 : oracle ((made + 1) + n) = AttemptRes.exn e := by rw [← hδ]; exact ho
      have hgoal : made + (n + 1) = made + 1 + n := hδ
      cases hatt : oracle (made + 1) with
      | exn e2 =>
        rw [show runReasons oracle made (n + 1) st =
            runReasons oracle (made + 1) n (failMsg (made + 1) e2, st.2) by
          simp [runReasons, hatt]]
        rw [hgoal]
        exact ih (made + 1) _ e (by omega) ho2
      | parsed cido reason =>
        rw [show runReasons oracle made (n + 1) st =
            runReasons oracle (made + 1) n
              ((if reason ≠ "" then reason else "not in whitelist"),
               (if reason ≠ "" then reason else "not in whitelist")) by
          simp [runReasons, hatt]]
        rw [hgoal]
        exact ih (made + 1) _ e (by omega) ho2

theorem runReasons_last_parsed (oracle : Nat → AttemptRes) :
    ∀ (r made : Nat) (st : String × String) (cido : Option String) (rs : String), 1 ≤ r →
      oracle (made + r) = AttemptRes.parsed cido rs →
      runReasons oracle made r st =
        ((if rs ≠ "" then rs else "not in whitelist"),
         (if rs ≠ "" then rs else "not in whitelist")) := by
  intro r
  induction r with
  | zero => intro _ _ _ _ h; omega
  | succ n ih =>
    intro made st cido rs _ ho
    by_cases hn : n = 0
    · subst hn
      have ho1 : oracle (made + 1) = AttemptRes.parsed cido rs := by simpa using ho
      simp [runReasons, ho1]
    · have hδ : made + (n + 1) = (made + 1) + n := by omega
      have ho2 : oracle ((made + 1) + n) = AttemptRes.parsed cido rs := by rw [← hδ]; exact ho
      cases hatt : oracle (made + 1) with
      | exn e2 =>
        rw [show runReasons oracle made (n + 1) st =
            runReasons oracle (made + 1) n (failMsg (made + 1) e2, st.2) by
          simp [runReasons, hatt]]
        exact ih (made + 1) _ cido rs (by omega) ho2
      | parsed cido2 reason2 =>
        rw [show runReasons oracle made (n + 1) st =
            runReasons oracle (made + 1) n
              ((if reason2 ≠ "" then reason2 else "not in whitelist"),
               (if reason2 ≠ "" then reason2 else "not in whitelist")) by
          simp [runReasons, hatt]]
        exact ih (made + 1) _ cido rs (by omega) ho2

/-! ## C4: behaviour when the capability always fails -/

/-- C4 counterexample: with the classifier capability unconfigured and
an attempt budget of 3, the adapter returns the error outcome after 0
attempts (and no sleeps), not after exactly 3 attempts as the claim
requires for the unconfigured case. -/
theorem llm_unconfigured_cex :
    llm_classify_cargo false llmOracleFail 3 1 =
      ⟨none, LLMStatus.error, "LLM not configured", 0, []⟩ ∧
    (llm_classify_cargo false llmOracleFail 3 1).attemptsMade ≠ 3 := by
  exact ⟨rfl, by decide⟩

/-- C4 (amended): the adapter is a total function always returning one
of the three outcomes.  For a configured capability whose every attempt
fails, an invocation with attempt budget `N ≥ 1` returns the error
outcome after exactly `N` attempts, sleeping the linear backoff delays
`base·1, base·2, …, base·(N-1)` between consecutive attempts and not
after the last; the unconfigured case instead returns the error outcome
immediately, after 0 attempts and with no sleeps. -/
theorem llm_always_fail (oracle : Nat → AttemptRes) (N : Nat) (base : ℚ)
    (hN : 1 ≤ N) (hfail : ∀ k, 1 ≤ k → k ≤ N → ∃ e, oracle k = AttemptRes.exn e) :
    (llm_classify_cargo true oracle N base).status = LLMStatus.error ∧
    (llm_classify_cargo true oracle N base).cargo_class_id = none ∧
    (llm_classify_cargo true oracle N base).attemptsMade = N ∧
    (llm_classify_cargo true oracle N base).sleeps =
      (List.range (N - 1)).map (fun i : Nat => base * ((i : ℚ) + 1)) ∧
    llm_classify_cargo false oracle N base =
      ⟨none, LLMStatus.error, "LLM not configured", 0, []⟩ := by
  have hnok : ∀ k, 0 < k → k ≤ 0 + N → isOkA (oracle k) = false := by
    intro k h1 h2
    obtain ⟨e, he⟩ := hfail k h1 (by omega)
    rw [he]; rfl
  have hcfg : llm_classify_cargo true oracle N base =
      llmGo oracle base N 0 "unknown" "uncertain" [] := rfl
  obtain ⟨e, he⟩ := hfail N hN (le_refl N)
  have hr : (runReasons oracle 0 N ("unknown", "uncertain")).1 = failMsg (0 + N) e := by
    apply runReasons_last_exn oracle N 0 _ e hN
    rw [Nat.zero_add]; exact he
  rw [hcfg, llmGo_no_ok oracle base N 0 "unknown" "uncertain" [] hnok,
    if_pos (by rw [hr]; exact kwCheck_failMsg _ _)]
  refine ⟨rfl, rfl, by simp, ?_, rfl⟩
  show [] ++ sleepsFrom base 0 N = _
  rw [List.nil_append]
  unfold sleepsFrom
  apply List.map_congr_left
  intro i _
  push_cast
  ring

/-- Witness for C4 (amended) with the always-timing-out oracle, budget
3 and base delay 1. -/
theorem llm_always_fail_w :
    (llm_classify_cargo true llmOracleFail 3 1).status = LLMStatus.error ∧
    (llm_classify_cargo true llmOracleFail 3 1).cargo_class_id = none ∧
    (llm_classify_cargo true llmOracleFail 3 1).attemptsMade = 3 ∧
    (llm_classify_cargo true llmOracleFail 3 1).sleeps =
      (List.range (3 - 1)).map (fun i : Nat => (1 : ℚ) * ((i : ℚ) + 1)) ∧
    llm_classify_cargo false llmOracleFail 3 1 =
      ⟨none, LLMStatus.error, "LLM not configured", 0, []⟩ :=
  llm_always_fail llmOracleFail 3 1 (by decide) (fun k _ _ => ⟨"Timeout", rfl⟩)

/-! ## C5: outcome selection of one adapter invocation -/

/-- C5 counterexample: one attempt, whose call succeeds and parses to
an uncertain answer (`cargo_class_id = null`) with rationale
"attempt aborted".  The last non-ok attempt is not a call failure, yet
the adapter returns the error outcome, because the final selection is a
keyword test on the retained reason text and the rationale contains
"attempt". -/
theorem llm_keyword_error_cex :
    llmOracleKw 1 = AttemptRes.parsed none "attempt aborted" ∧
    (llm_classify_cargo true llmOracleKw 1 1).status = LLMStatus.error := by
  exact ⟨rfl, by decide⟩

/-- C5 (amended): the first attempt producing ok (a whitelist id)
short-circuits: the invocation returns that attempt with ok status
after exactly that many attempts.  If no attempt of the budget `N ≥ 1`
produced ok, the invocation returns the error outcome if and only if
the retained reason text contains "failed", "not configured" or
"attempt" case-insensitively — which always holds when the last attempt
was a call failure, but also fires on an uncertain rationale containing
one of these substrings — and otherwise returns the uncertain outcome. -/
theorem llm_outcome_selection (oracle : Nat → AttemptRes) (N : Nat) (base : ℚ)
    (hN : 1 ≤ N) :
    (∀ k c rs, 1 ≤ k → k ≤ N →
      oracle k = AttemptRes.parsed (some c) rs →
      isOkA (AttemptRes.parsed (some c) rs) = true →
      (∀ j, 1 ≤ j → j < k → isOkA (oracle j) = false) →
      llm_classify_cargo true oracle N base =
        ⟨some c, LLMStatus.ok, rs, k,
          (List.range (k - 1)).map (fun i : Nat => base * ((i : ℚ) + 1))⟩) ∧
    ((∀ k, 1 ≤ k → k ≤ N → isOkA (oracle k) = false) →
      (((llm_classify_cargo true oracle N base).status = LLMStatus.error ↔
          kwCheck (llm_classify_cargo true oracle N base).reason = true) ∧
        ((llm_classify_cargo true oracle N base).status ≠ LLMStatus.error →
          (llm_classify_cargo true oracle N base).status = LLMStatus.uncertain) ∧
        ((∃ e, oracle N = AttemptRes.exn e) →
          (llm_classify_cargo true oracle N base).status = LLMStatus.error))) := by
  have hcfg : llm_classify_cargo true oracle N base =
      llmGo oracle base N 0 "unknown" "uncertain" [] := rfl
  constructor
  · intro k c rs hk1 hk2 ho hok2 hprev
    rw [hcfg, llmGo_first_ok oracle base N 0 "unknown" "uncertain" [] k c rs (by omega)
      (by omega) ho hok2 (fun j h1 h2 => hprev j (by omega) h2)]
    have hsl : ([] : List ℚ) ++ sleepsFrom base 0 (k - 0) =
        (List.range (k - 1)).map (fun i : Nat => base * ((i : ℚ) + 1)) := by
      rw [List.nil_append, Nat.sub_zero]
      unfold sleepsFrom
      apply List.map_congr_left
      intro i _
      push_cast
      ring
    rw [hsl]
  · intro hnok0
    have hnok : ∀ k, 0 < k → k ≤ 0 + N → isOkA (oracle k) = false :=
      fun k h1 h2 => hnok0 k h1 (by omega)
    rw [hcfg, llmGo_no_ok oracle base N 0 "unknown" "uncertain" [] hnok]
    by_cases hkw : kwCheck (runReasons oracle 0 N ("unknown", "uncertain")).1 = true
    · rw [if_pos hkw]
      exact ⟨⟨fun _ => hkw, fun _ => rfl⟩, fun hne => absurd rfl hne, fun _ => rfl⟩
    · rw [if_neg hkw]
      cases hatt : oracle N with
      | exn e =>
        exfalso
        have h1 : (runReasons oracle 0 N ("unknown", "uncertain")).1 = failMsg (0 + N) e := by
          apply runReasons_last_exn oracle N 0 _ e hN
          rw [Nat.zero_add]; exact hatt
        rw [h1] at hkw
        exact hkw (kwCheck_failMsg _ _)
      | parsed cido rs =>
        have hpr : runReasons oracle 0 N ("unknown", "uncertain") =
            ((if rs ≠ "" then rs else "not in whitelist"),
             (if rs ≠ "" then rs else "not in whitelist")) := by
          apply runReasons_last_parsed oracle N 0 _ cido rs hN
          rw [Nat.zero_add]; exact hatt
        have hne := notWl_ne rs
        refine ⟨⟨?_, ?_⟩, fun _ => rfl, ?_⟩
        · intro hst; simp at hst
        · intro hkw2
          exfalso
          apply hkw
          rw [hpr] at hkw2 ⊢
          simp only [hne, if_pos, ne_eq, not_false_iff] at hkw2 ⊢
          simpa using hkw2
        · rintro ⟨e, he⟩
          simp at he

/-- Witness for C5 (amended): the second attempt is the first confident
one and short-circuits with one backoff sleep before it. -/
theorem llm_outcome_selection_w :
    llm_classify_cargo true llmOracleW 3 1 =
      ⟨some "CARGO003", LLMStatus.ok, "электроника", 2,
        (List.range (2 - 1)).map (fun i : Nat => (1 : ℚ) * ((i : ℚ) + 1))⟩ :=
  (llm_outcome_selection llmOracleW 3 1 (by decide)).1 2 "CARGO003" "электроника"
    (by decide) (by decide) rfl (by decide)
    (fun j h1 h2 => by
      have hj : j = 1 := by omega
      subst hj
      decide)

/-! ## State machine lemmas -/

theorem chat_stage_retry (retryMax : Nat) (classify : String → Option String × LLMStatus × String)
    (engine : TariffPayload → Option EngineResult) (s : Session) (msg : String)
    (hst : s.stage = "cargo_retry") :
    chat retryMax classify engine s msg = hCargoRetry retryMax classify s := by
  simp [chat, hst]

theorem chat_stage_route (retryMax : Nat) (classify : String → Option String × LLMStatus × String)
    (engine : TariffPayload → Option EngineResult) (s : Session) (msg : String)
    (hst : s.stage = "quote_route") :
    chat retryMax classify engine s msg = hQuoteRoute engine s (pyStrip msg) := by
  simp [chat, hst]

theorem chat_stage_confirm (retryMax : Nat) (classify : String → Option String × LLMStatus × String)
    (engine : TariffPayload → Option EngineResult) (s : Session) (msg : String)
    (hst : s.stage = "cargo_confirm") (hp : (s.pending.cargo_proposed).isSome) :
    chat retryMax classify engine s msg = hCargoConfirm s (pyStrip msg) := by
  simp [chat, hst, hp]

theorem hWelcome_count (s s2 : Session) (r : String) (h : hWelcome s = some (s2, r)) :
    s2.pending.cargo_retry_count = s.pending.cargo_retry_count := by
  simp only [hWelcome, Option.some.injEq, Prod.mk.injEq] at h
  obtain ⟨h1, _⟩ := h
  subst h1
  rfl

theorem hIntentSelect_count (s : Session) (t : String) (s2 : Session) (r : String)
    (h : hIntentSelect s t = some (s2, r)) :
    s2.pending.cargo_retry_count = s.pending.cargo_retry_count := by
  unfold hIntentSelect at h
  repeat' split at h
  all_goals
    simp only [Option.some.injEq, Prod.mk.injEq] at h
  all_goals obtain ⟨h1, _⟩ := h
  all_goals subst h1
  all_goals rfl

theorem hConsult_count (s : Session) (t : String) (s2 : Session) (r : String)
    (h : hConsult s t = some (s2, r)) :
    s2.pending.cargo_retry_count = s.pending.cargo_retry_count := by
  unfold hConsult at h
  repeat' split at h
  all_goals
    simp only [Option.some.injEq, Prod.mk.injEq] at h
  all_goals obtain ⟨h1, _⟩ := h
  all_goals subst h1
  all_goals rfl

theorem hCargoConfirm_count (s : Session) (t : String) (s2 : Session) (r : String)
    (h : hCargoConfirm s t = some (s2, r)) :
    s2.pending.cargo_retry_count = s.pending.cargo_retry_count := by
  unfold hCargoConfirm at h
  dsimp only at h
  repeat' split at h
  all_goals first
    | (simp only [Option.some.injEq, Prod.mk.injEq] at h
       obtain ⟨h1, _⟩ := h
       subst h1
       rfl)
    | simp at h

theorem hCargoChoose_count (s : Session) (t : String) (s2 : Session) (r : String)
    (h : hCargoChoose s t = some (s2, r)) :
    s2.pending.cargo_retry_count = s.pending.cargo_retry_count := by
  unfold hCargoChoose at h
  dsimp only at h
  repeat' split at h
  all_goals first
    | (simp only [Option.some.injEq, Prod.mk.injEq] at h
       obtain ⟨h1, _⟩ := h
       subst h1
       rfl)
    | simp at h

theorem hQuoteSum_count (s : Session) (t : String) (s2 : Session) (r : String)
    (h : hQuoteSum s t = some (s2, r)) :
    s2.pending.cargo_retry_count = s.pending.cargo_retry_count := by
  unfold hQuoteSum at h
  dsimp only at h
  repeat' split at h
  all_goals first
    | (simp only [Option.some.injEq, Prod.mk.injEq] at h
       obtain ⟨h1, _⟩ := h
       subst h1
       rfl)
    | simp at h

theorem hQuoteCondition_count (s : Session) (t : String) (s2 : Session) (r : String)
    (h : hQuoteCondition s t = some (s2, r)) :
    s2.pending.cargo_retry_count = s.pending.cargo_retry_count := by
  unfold hQuoteCondition at h
  dsimp only at h
  repeat' split at h
  all_goals first
    | (simp only [Option.some.injEq, Prod.mk.injEq] at h
       obtain ⟨h1, _⟩ := h
       subst h1
       rfl)
    | simp at h

theorem hQuoteFranchise_count (s : Session) (t : String) (s2 : Session) (r : String)
    (h : hQuoteFranchise s t = some (s2, r)) :
    s2.pending.cargo_retry_count = s.pending.cargo_retry_count := by
  unfold hQuoteFranchise at h
  dsimp only at h
  repeat' split at h
  all_goals first
    | (simp only [Option.some.injEq, Prod.mk.injEq] at h
       obtain ⟨h1, _⟩ := h
       subst h1
       rfl)
    | simp at h

theorem hQuoteReefer_count (s : Session) (t : String) (s2 : Session) (r : String)
    (h : hQuoteReefer s t = some (s2, r)) :
    s2.pending.cargo_retry_count = s.pending.cargo_retry_count := by
  unfold hQuoteReefer at h
  dsimp only at h
  repeat' split at h
  all_goals first
    | (simp only [Option.some.injEq, Prod.mk.injEq] at h
       obtain ⟨h1, _⟩ := h
       subst h1
       rfl)
    | simp at h

theorem hQuoteRoute_count (engine : TariffPayload → Option EngineResult)
    (s : Session) (t : String) (s2 : Session) (r : String)
    (h : hQuoteRoute engine s t = some (s2, r)) :
    s2.pending.cargo_retry_count = s.pending.cargo_retry_count := by
  unfold hQuoteRoute at h
  split at h
  · simp only [Option.some.injEq, Prod.mk.injEq] at h
    obtain ⟨h1, _⟩ := h
    subst h1
    rfl
  · split at h
    · dsimp only at h
      split at h
      · split at h
        · simp at h
        · split at h
          all_goals
            simp only [Option.some.injEq, Prod.mk.injEq] at h
          all_goals obtain ⟨h1, _⟩ := h
          all_goals subst h1
          all_goals rfl
      · simp only [Option.some.injEq, Prod.mk.injEq] at h
        obtain ⟨h1, _⟩ := h
        subst h1
        rfl
    · simp only [Option.some.injEq, Prod.mk.injEq] at h
      obtain ⟨h1, _⟩ := h
      subst h1
      rfl

theorem hQuoted_count (s : Session) (t : String) (s2 : Session) (r : String)
    (h : hQuoted s t = some (s2, r)) :
    s2.pending.cargo_retry_count = s.pending.cargo_retry_count := by
  unfold hQuoted at h
  repeat' split at h
  all_goals first
    | (simp only [Option.some.injEq, Prod.mk.injEq] at h
       obtain ⟨h1, _⟩ := h
       subst h1
       rfl)
    | simp at h

theorem hRefer_count (s : Session) (t : String) (s2 : Session) (r : String)
    (h : hRefer s t = some (s2, r)) :
    s2.pending.cargo_retry_count = s.pending.cargo_retry_count := by
  unfold hRefer at h
  repeat' split at h
  all_goals first
    | (simp only [Option.some.injEq, Prod.mk.injEq] at h
       obtain ⟨h1, _⟩ := h
       subst h1
       rfl)
    | simp at h

theorem hCargoRetry_count (retryMax : Nat) (classify : String → Option String × LLMStatus × String)
    (s : Session) (s2 : Session) (r : String)
    (h : hCargoRetry retryMax classify s = some (s2, r)) :
    s2.pending.cargo_retry_count = s.pending.cargo_retry_count + 1 := by
  unfold hCargoRetry at h
  dsimp only at h
  repeat' split at h
  all_goals first
    | (simp only [Option.some.injEq, Prod.mk.injEq] at h
       obtain ⟨h1, _⟩ := h
       subst h1
       rfl)
    | simp at h

theorem hQuoteCargo_count (classify : String → Option String × LLMStatus × String)
    (s : Session) (t : String) (s2 : Session) (r : String)
    (h : hQuoteCargo classify s t = some (s2, r)) :
    s2.pending.cargo_retry_count = 0 := by
  unfold hQuoteCargo at h
  dsimp only at h
  repeat' split at h
  all_goals first
    | (simp only [Option.some.injEq, Prod.mk.injEq] at h
       obtain ⟨h1, _⟩ := h
       subst h1
       rfl)
    | simp at h

theorem chat_stage_welcome (retryMax : Nat) (classify : String → Option String × LLMStatus × String)
    (engine : TariffPayload → Option EngineResult) (s : Session) (msg : String)
    (hst : s.stage = "welcome") :
    chat retryMax classify engine s msg = hWelcome s := by
  simp [chat, hst]

theorem chat_stage_intent_select (retryMax : Nat) (classify : String → Option String × LLMStatus × String)
    (engine : TariffPayload → Option EngineResult) (s : Session) (msg : String)
    (hst : s.stage = "intent_select") :
    chat retryMax classify engine s msg = hIntentSelect s (pyStrip msg) := by
  simp [chat, hst]

theorem chat_stage_consult (retryMax : Nat) (classify : String → Option String × LLMStatus × String)
    (engine : TariffPayload → Option EngineResult) (s : Session) (msg : String)
    (hst : s.stage = "consult") :
    chat retryMax classify engine s msg = hConsult s (pyStrip msg) := by
  simp [chat, hst]

theorem chat_stage_cargo_choose (retryMax : Nat) (classify : String → Option String × LLMStatus × String)
    (engine : TariffPayload → Option EngineResult) (s : Session) (msg : String)
    (hst : s.stage = "cargo_choose") :
    chat retryMax classify engine s msg = hCargoChoose s (pyStrip msg) := by
  simp [chat, hst]

theorem chat_stage_quote_sum (retryMax : Nat) (classify : String → Option String × LLMStatus × String)
    (engine : TariffPayload → Option EngineResult) (s : Session) (msg : String)
    (hst : s.stage = "quote_sum") :
    chat retryMax classify engine s msg = hQuoteSum s (pyStrip msg) := by
  simp [chat, hst]

theorem chat_stage_quote_cargo (retryMax : Nat) (classify : String → Option String × LLMStatus × String)
    (engine : TariffPayload → Option EngineResult) (s : Session) (msg : String)
    (hst : s.stage = "quote_cargo") :
    chat retryMax classify engine s msg = hQuoteCargo classify s (pyStrip msg) := by
  simp [chat, hst]

theorem chat_stage_quote_condition (retryMax : Nat) (classify : String → Option String × LLMStatus × String)
    (engine : TariffPayload → Option EngineResult) (s : Session) (msg : String)
    (hst : s.stage = "quote_condition") :
    chat retryMax classify engine s msg = hQuoteCondition s (pyStrip msg) := by
  simp [chat, hst]

theorem chat_stage_quote_franchise (retryMax : Nat) (classify : String → Option String × LLMStatus × String)
    (engine : TariffPayload → Option EngineResult) (s : Session) (msg : String)
    (hst : s.stage = "quote_franchise") :
    chat retryMax classify engine s msg = hQuoteFranchise s (pyStrip msg) := by
  simp [chat, hst]

theorem chat_stage_quote_reefer (retryMax : Nat) (classify : String → Option String × LLMStatus × String)
    (engine : TariffPayload → Option EngineResult) (s : Session) (msg : String)
    (hst : s.stage = "quote_reefer") :
    chat retryMax classify engine s msg = hQuoteReefer s (pyStrip msg) := by
  simp [chat, hst]

theorem chat_stage_quoted (retryMax : Nat) (classify : String → Option String × LLMStatus × String)
    (engine : TariffPayload → Option EngineResult) (s : Session) (msg : String)
    (hst : s.stage = "quoted") :
    chat retryMax classify engine s msg = hQuoted s (pyStrip msg) := by
  simp [chat, hst]

theorem chat_stage_refer (retryMax : Nat) (classify : String → Option String × LLMStatus × String)
    (engine : TariffPayload → Option EngineResult) (s : Session) (msg : String)
    (hst : s.stage = "refer") :
    chat retryMax classify engine s msg = hRefer s (pyStrip msg) := by
  simp [chat, hst]

theorem chat_stage_confirm_noprop (retryMax : Nat)
    (classify : String → Option String × LLMStatus × String)
    (engine : TariffPayload → Option EngineResult) (s : Session) (msg : String)
    (hst : s.stage = "cargo_confirm") (hp : s.pending.cargo_proposed = none) :
    chat retryMax classify engine s msg =
      some ({ s with stage := "intent_select" },
        "Давайте начнём: вам нужна консультация или оформить страховку?") := by
  simp [chat, hst, hp]

theorem chat_stage_other (retryMax : Nat)
    (classify : String → Option String × LLMStatus × String)
    (engine : TariffPayload → Option EngineResult) (s : Session) (msg : String)
    (h1 : s.stage ≠ "welcome") (h2 : s.stage ≠ "intent_select") (h3 : s.stage ≠ "consult")
    (h4 : s.stage ≠ "cargo_confirm") (h5 : s.stage ≠ "cargo_retry")
    (h6 : s.stage ≠ "cargo_choose") (h7 : s.stage ≠ "quote_sum")
    (h8 : s.stage ≠ "quote_cargo") (h9 : s.stage ≠ "quote_condition")
    (h10 : s.stage ≠ "quote_franchise") (h11 : s.stage ≠ "quote_reefer")
    (h12 : s.stage ≠ "quote_route") (h13 : s.stage ≠ "quoted") (h14 : s.stage ≠ "refer") :
    chat retryMax classify engine s msg =
      some ({ s with stage := "intent_select" },
        "Давайте начнём: вам нужна консультация или оформить страховку?") := by
  simp [chat, h1, h2, h3, h4, h5, h6, h7, h8, h9, h10, h11, h12, h13, h14]

/-! ## C8: retry counter discipline -/

/-- C8: on every successful chat turn, the retry counter is incremented
exactly once if the turn was processed in stage `cargo_retry`, reset to
0 on every `quote_cargo`-stage turn (fresh cargo text submitted), and
left unchanged by every other transition. -/
theorem retry_counter_invariant (retryMax : Nat)
    (classify : String → Option String × LLMStatus × String)
    (engine : TariffPayload → Option EngineResult) (s : Session) (msg : String)
    (s2 : Session) (reply : String)
    (h : chat retryMax classify engine s msg = some (s2, reply)) :
    (s.stage = "cargo_retry" → s2.pending.cargo_retry_count = s.pending.cargo_retry_count + 1) ∧
    (s.stage = "quote_cargo" → s2.pending.cargo_retry_count = 0) ∧
    (s.stage ≠ "cargo_retry" → s.stage ≠ "quote_cargo" →
      s2.pending.cargo_retry_count = s.pending.cargo_retry_count) := by
  by_cases c5 : s.stage = "cargo_retry"
  · rw [chat_stage_retry _ _ _ _ _ c5] at h
    exact ⟨fun _ => hCargoRetry_count _ _ _ _ _ h,
           fun hc => absurd (c5.symm.trans hc) (by decide),
           fun hne _ => absurd c5 hne⟩
  by_cases c8 : s.stage = "quote_cargo"
  · rw [chat_stage_quote_cargo _ _ _ _ _ c8] at h
    exact ⟨fun hc => absurd (c8.symm.trans hc) (by decide),
           fun _ => hQuoteCargo_count _ _ _ _ _ h,
           fun _ hne => absurd c8 hne⟩
  refine ⟨fun hc => absurd hc c5, fun hc => absurd hc c8, fun _ _ => ?_⟩
  by_cases c1 : s.stage = "welcome"
  · rw [chat_stage_welcome _ _ _ _ _ c1] at h
    exact hWelcome_count _ _ _ h
  by_cases c2 : s.stage = "intent_select"
  · rw [chat_stage_intent_select _ _ _ _ _ c2] at h
    exact hIntentSelect_count _ _ _ _ h
  by_cases c3 : s.stage = "consult"
  · rw [chat_stage_consult _ _ _ _ _ c3] at h
    exact hConsult_count _ _ _ _ h
  by_cases c4 : s.stage = "cargo_confirm"
  · cases hp : s.pending.cargo_proposed with
    | some pr =>
      have hps : (s.pending.cargo_proposed).isSome = true := by rw [hp]; rfl
      rw [chat_stage_confirm _ _ _ _ _ c4 hps] at h
      exact hCargoConfirm_count _ _ _ _ h
    | none =>
      rw [chat_stage_confirm_noprop _ _ _ _ _ c4 hp] at h
      simp only [Option.some.injEq, Prod.mk.injEq] at h
      obtain ⟨hh, _⟩ := h
      subst hh
      rfl
  by_cases c6 : s.stage = "cargo_choose"
  · rw [chat_stage_cargo_choose _ _ _ _ _ c6] at h
    exact hCargoChoose_count _ _ _ _ h
  by_cases c7 : s.stage = "quote_sum"
  · rw [chat_stage_quote_sum _ _ _ _ _ c7] at h
    exact hQuoteSum_count _ _ _ _ h
  by_cases c9 : s.stage = "quote_condition"
  · rw [chat_stage_quote_condition _ _ _ _ _ c9] at h
    exact hQuoteCondition_count _ _ _ _ h
  by_cases c10 : s.stage = "quote_franchise"
  · rw [chat_stage_quote_franchise _ _ _ _ _ c10] at h
    exact hQuoteFranchise_count _ _ _ _ h
  by_cases c11 : s.stage = "quote_reefer"
  · rw [chat_stage_quote_reefer _ _ _ _ _ c11] at h
    exact hQuoteReefer_count _ _ _ _ h
  by_cases c12 : s.stage = "quote_route"
  · rw [chat_stage_route _ _ _ _ _ c12] at h
    exact hQuoteRoute_count _ _ _ _ _ h
  by_cases c13 : s.stage = "quoted"
  · rw [chat_stage_quoted _ _ _ _ _ c13] at h
    exact hQuoted_count _ _ _ _ h
  by_cases c14 : s.stage = "refer"
  · rw [chat_stage_refer _ _ _ _ _ c14] at h
    exact hRefer_count _ _ _ _ h
  rw [chat_stage_other _ _ _ _ _ c1 c2 c3 c4 c5 c6 c7 c8 c9 c10 c11 c12 c13 c14] at h
  simp only [Option.some.injEq, Prod.mk.injEq] at h
  obtain ⟨hh, _⟩ := h
  subst hh
  rfl

/-- Witness for C8: the affirmative confirm turn on `sessionConfirm`
leaves the retry counter unchanged. -/
theorem retry_counter_invariant_w :
    (sessionConfirm.stage = "cargo_retry" →
      sessionConfirmYes.pending.cargo_retry_count = sessionConfirm.pending.cargo_retry_count + 1) ∧
    (sessionConfirm.stage = "quote_cargo" → sessionConfirmYes.pending.cargo_retry_count = 0) ∧
    (sessionConfirm.stage ≠ "cargo_retry" → sessionConfirm.stage ≠ "quote_cargo" →
      sessionConfirmYes.pending.cargo_retry_count = sessionConfirm.pending.cargo_retry_count) :=
  retry_counter_invariant 2 classifyNone engineOkW sessionConfirm "да" sessionConfirmYes
    (next_question "quote_condition") (by decide)

/-! ## C6: retry turns beyond the maximum -/

/-- C6 counterexample: in stage `cargo_retry` with the counter already
at the configured maximum (2), the incremented counter (3) exceeds it,
yet an ok classifier outcome moves the session to `cargo_confirm` and
not unconditionally to `cargo_choose`. -/
theorem retry_over_max_ok_cex :
    2 < sessionRetry.pending.cargo_retry_count + 1 ∧
    (chat 2 classifyOk engineNone sessionRetry "ок").map (fun p => p.1.stage) =
      some "cargo_confirm" ∧
    ("cargo_confirm" : String) ≠ "cargo_choose" :=
  ⟨by decide, by decide, by decide⟩

/-- C6 (amended): on a `cargo_retry` turn whose incremented retry
counter exceeds the configured maximum, the session moves to
`cargo_choose` for an error or uncertain classifier outcome of that
turn, but an ok outcome (carrying a whitelist class id) still moves it
to `cargo_confirm` — the transition to manual selection is not
unconditional. -/
theorem retry_over_max (retryMax : Nat)
    (classify : String → Option String × LLMStatus × String)
    (engine : TariffPayload → Option EngineResult) (s : Session) (msg : String)
    (hst : s.stage = "cargo_retry")
    (hover : retryMax < s.pending.cargo_retry_count + 1) :
    (∀ cido st rs, classify (s.data.cargo_desc.getD "") = (cido, st, rs) →
      st = LLMStatus.error ∨ st = LLMStatus.uncertain →
      chat retryMax classify engine s msg =
        some ({ s with
                  stage := "cargo_choose",
                  pending := { s.pending with
                                cargo_retry_count := s.pending.cargo_retry_count + 1 } },
          manual_cargo_choice_text)) ∧
    (∀ c rs name, classify (s.data.cargo_desc.getD "") = (some c, LLMStatus.ok, rs) →
      lookupS CARGO_CLASSES c = some name →
      chat retryMax classify engine s msg =
        some ({ s with
                  stage := "cargo_confirm",
                  pending := { cargo_proposed := some (c, name),
                               cargo_retry_count := s.pending.cargo_retry_count + 1 } },
          "Похоже, ваш груз относится к категории: «" ++ name ++ "». Верно? (да/нет)")) := by
  rw [chat_stage_retry _ _ _ _ _ hst]
  have hle : ¬ (s.pending.cargo_retry_count + 1 ≤ retryMax) := by omega
  constructor
  · rintro cido st rs hcl (hici | hici) <;> subst hici <;> rcases cido with _ | cval <;>
      simp [hCargoRetry, hcl, hle]
  · intro c rs name hcl hlk
    have hcne : c ≠ "" := by
      intro he
      rw [he, show lookupS CARGO_CLASSES "" = none from by decide] at hlk
      simp at hlk
    simp [hCargoRetry, hcl, hcne, hlk]

/-- Witness for C6 (amended): an ok outcome on an over-budget retry
turn goes to `cargo_confirm`. -/
theorem retry_over_max_w :
    chat 2 classifyOk engineNone sessionRetry "ок" =
      some ({ sessionRetry with
                stage := "cargo_confirm",
                pending := { cargo_proposed :=
                               some ("CARGO003",
                                 "Бытовая электротехника, электронная аппаратура и офисная (организационная) техника"),
                             cargo_retry_count :=
                               sessionRetry.pending.cargo_retry_count + 1 } },
        "Похоже, ваш груз относится к категории: «" ++
          "Бытовая электротехника, электронная аппаратура и офисная (организационная) техника" ++
          "». Верно? (да/нет)") :=
  (retry_over_max 2 classifyOk engineNone sessionRetry "ок" (by decide) (by decide)).2
    "CARGO003" "электроника"
    "Бытовая электротехника, электронная аппаратура и офисная (организационная) техника"
    rfl (by decide)

/-! ## C7: route stage gates the terminal transition on the engine decision -/

theorem parse_route_zone_mem (t z : String) (h : parse_route_zone t = some z) :
    z ∈ ROUTE_OPTIONS := by
  unfold parse_route_zone at h
  repeat' split at h
  all_goals
    by_cases h1 : pyIn "снг" (pyStrip (pyLowerStr t)) = true
  all_goals first
    | (rw [if_pos h1] at h; cases h; decide)
    | rw [if_neg h1] at h
  all_goals
    by_cases h2 : pyIn "весь мир" (pyStrip (pyLowerStr t)) = true
  all_goals first
    | (rw [if_pos h2] at h; cases h; decide)
    | rw [if_neg h2] at h
  all_goals
    by_cases h3 : (decide (pyStrip (pyLowerStr t) = "rf") ||
        decide (pyStrip (pyLowerStr t) = "russia") ||
        decide (pyStrip (pyLowerStr t) = "россия") ||
        decide (pyStrip (pyLowerStr t) = "рф")) = true
  all_goals first
    | (rw [if_pos h3] at h; cases h; decide)
    | (rw [if_neg h3] at h
       first
        | (cases h; assumption)
        | simp at h)

/-- C7: on a `quote_route` turn whose message parses to a valid zone:
if one of the six collected fields is still unset, the session loops
back to `quote_sum` and the turn result does not depend on the tariff
engine at all (it is not invoked); otherwise the engine is invoked on
the collected facts and its decision alone gates the outcome — AUTO_OK
puts the premium into the reply and moves to `quoted`, REFER and
DECLINE move to `refer` surfacing the returned reasons. -/
theorem quote_route_gate (retryMax : Nat)
    (classify : String → Option String × LLMStatus × String)
    (engine : TariffPayload → Option EngineResult) (s : Session) (msg : String) (z : String)
    (hst : s.stage = "quote_route")
    (hz : parse_route_zone (pyStrip msg) = some z) :
    (quote_missing { s.data with route_zone := some z } ≠ [] →
      ∀ engine2, chat retryMax classify engine2 s msg =
        some ({ s with stage := "quote_sum", data := { s.data with route_zone := some z } },
          "Не хватает данных для расчёта. " ++ next_question "quote_sum")) ∧
    (quote_missing { s.data with route_zone := some z } = [] →
      ∀ res, engine (mkPayload { s.data with route_zone := some z }) = some res →
        ((res.decision = some "AUTO_OK" →
          chat retryMax classify engine s msg =
            some ({ s with stage := "quoted", data := { s.data with route_zone := some z } },
              "Стоимость страховки: " ++ showOptInt res.premium_rub ++
                " ₽.\nСогласны оформить? (да/нет)")) ∧
         ((res.decision = some "REFER" ∨ res.decision = some "DECLINE") →
          chat retryMax classify engine s msg =
            some ({ s with stage := "refer", data := { s.data with route_zone := some z } },
              "Онлайн-оформление недоступно: " ++
                (if String.intercalate ", " res.reasons = "" then "нужна проверка"
                 else String.intercalate ", " res.reasons) ++
                ". Хотите передать заявку менеджеру? (да/нет)")))) := by
  have hmem : z ∈ ROUTE_OPTIONS := parse_route_zone_mem _ _ hz
  constructor
  · intro hmiss engine2
    rw [chat_stage_route _ _ _ _ _ hst]
    simp [hQuoteRoute, hz, hmem, hmiss]
  · intro hmiss res hres
    constructor
    · intro hdec
      rw [chat_stage_route _ _ _ _ _ hst]
      have hget : res.decision.getD "REFER" = "AUTO_OK" := by rw [hdec]; rfl
      simp [hQuoteRoute, hz, hmem, hmiss, hres, hget]
    · intro hdec
      rw [chat_stage_route _ _ _ _ _ hst]
      have hget : ¬ res.decision.getD "REFER" = "AUTO_OK" := by
        rcases hdec with hdec | hdec <;> rw [hdec] <;> decide
      simp [hQuoteRoute, hz, hmem, hmiss, hres, hget]

/-- Witness for C7 at a fully collected session and an AUTO_OK engine
response with premium 12500. -/
theorem quote_route_gate_w :
    chat 2 classifyNone engineOkW sessionRoute "РФ" =
      some ({ sessionRoute with
                stage := "quoted",
                data := { sessionRoute.data with route_zone := some "РФ" } },
        "Стоимость страховки: " ++
          showOptInt (EngineResult.premium_rub
            { decision := some "AUTO_OK", premium_rub := some 12500, reasons := [] }) ++
          " ₽.\nСогласны оформить? (да/нет)") :=
  ((quote_route_gate 2 classifyNone engineOkW sessionRoute "РФ" "РФ" (by decide)
      (by decide)).2 (by decide)
    { decision := some "AUTO_OK", premium_rub := some 12500, reasons := [] } rfl).1 rfl

/-! ## C10: cargo_confirm frame conditions -/

/-- C10: on a `cargo_confirm` turn with a pending proposal, an
affirmative answer commits the proposed class id, clears the proposal
and advances to `quote_condition`; a negative answer clears the
proposal together with `cargo_class_id` and `cargo_desc` and returns to
`quote_cargo`; an unrecognized answer leaves the session unchanged and
re-prompts.  The stated session equalities pin every other field
(collected fields, intent, retry counter) unchanged, and exactly one
outbound prompt is returned. -/
theorem cargo_confirm_frame (retryMax : Nat)
    (classify : String → Option String × LLMStatus × String)
    (engine : TariffPayload → Option EngineResult) (s : Session) (msg : String)
    (pid pname : String)
    (hst : s.stage = "cargo_confirm")
    (hp : s.pending.cargo_proposed = some (pid, pname)) :
    (parse_yes_no (pyStrip msg) = some true →
      chat retryMax classify engine s msg =
        some ({ s with
                  stage := "quote_condition",
                  data := { s.data with cargo_class_id := some pid },
                  pending := { s.pending with cargo_proposed := none } },
          next_question "quote_condition")) ∧
    (parse_yes_no (pyStrip msg) = some false →
      chat retryMax classify engine s msg =
        some ({ s with
                  stage := "quote_cargo",
                  data := { s.data with cargo_class_id := none, cargo_desc := none },
                  pending := { s.pending with cargo_proposed := none } },
          "Ок. Тогда уточните, пожалуйста, какой груз перевозите (1–2 слова)?")) ∧
    (parse_yes_no (pyStrip msg) = none →
      chat retryMax classify engine s msg =
        some (s, "Подтвердите, пожалуйста: **да** или **нет**.")) := by
  have hps : (s.pending.cargo_proposed).isSome = true := by rw [hp]; rfl
  rw [chat_stage_confirm _ _ _ _ _ hst hps]
  refine ⟨fun hy => ?_, fun hn => ?_, fun hu => ?_⟩
  · simp [hCargoConfirm, hp, hy]
  · simp [hCargoConfirm, hp, hn]
  · simp [hCargoConfirm, hp, hu]

/-- Witness for C10: the affirmative turn on `sessionConfirm`. -/
theorem cargo_confirm_frame_w :
    chat 2 classifyNone engineOkW sessionConfirm "да" =
      some ({ sessionConfirm with
                stage := "quote_condition",
                data := { sessionConfirm.data with cargo_class_id := some "CARGO003" },
                pending := { sessionConfirm.pending with cargo_proposed := none } },
        next_question "quote_condition") :=
  (cargo_confirm_frame 2 classifyNone engineOkW sessionConfirm "да" "CARGO003"
      "Бытовая электротехника, электронная аппаратура и офисная (организационная) техника"
      (by decide) (by decide)).1 (by decide)

/-! ## Extractor lemmas (C9) -/

theorem lookupChar_mem : ∀ (t : List (Char × Char)) (c v : Char),
    lookupChar t c = some v → (c, v) ∈ t := by
  intro t
  induction t with
  | nil => intro c v h; simp [lookupChar] at h
  | cons p rest ih =>
    intro c v h
    obtain ⟨k, w⟩ := p
    unfold lookupChar at h
    by_cases hc : c = k
    · rw [if_pos hc] at h
      subst hc
      simp at h
      subst h
      exact List.mem_cons_self _ _
    · rw [if_neg hc] at h
      exact List.mem_cons_of_mem _ (ih c v h)

theorem lowerTable_vals : ∀ p ∈ lowerTable, (p.2.isDigit = false) ∧ p.2 ≠ ',' := by decide

theorem digit_pyLowerChar (c : Char) (h : c ∈ digitChars) : pyLowerChar c = c := by
  fin_cases h <;> decide

theorem digit_isDigit (c : Char) (h : c ∈ digitChars) : c.isDigit = true := by
  fin_cases h <;> decide

theorem digit_ne_comma (c : Char) (h : c ∈ digitChars) : ¬ c = ',' := by
  fin_cases h <;> decide

theorem digit_isWord (c : Char) (h : c ∈ digitChars) : isWordChar c = true := by
  fin_cases h <;> decide

theorem digit_isDigitOrSpace (c : Char) (h : c ∈ digitChars) : isDigitOrSpace c = true := by
  fin_cases h <;> decide

theorem normStep_nondigit (c : Char) (h : c.isDigit = false) :
    (if pyLowerChar c = ',' then '.' else pyLowerChar c).isDigit = false := by
  unfold pyLowerChar
  cases hl : lookupChar lowerTable c with
  | some v =>
    obtain ⟨hv1, hv2⟩ := lowerTable_vals (c, v) (lookupChar_mem _ _ _ hl)
    simp only [Option.getD_some]
    rw [if_neg hv2]
    exact hv1
  | none =>
    simp only [Option.getD_none]
    by_cases hc : c = ','
    · rw [if_pos hc]; decide
    · rw [if_neg hc]; exact h

theorem takeWhile_all (p : Char → Bool) : ∀ l : List Char, (∀ c ∈ l, p c = true) →
    l.takeWhile p = l := by
  intro l
  induction l with
  | nil => intro _; rfl
  | cons c t ih =>
    intro h
    rw [List.takeWhile_cons, h c (List.mem_cons_self _ _)]
    simp [ih (fun x hx => h x (List.mem_cons_of_mem _ hx))]

theorem takeWhile_all_append (p : Char → Bool) (l1 l2 : List Char)
    (h : ∀ c ∈ l1, p c = true) :
    (l1 ++ l2).takeWhile p = l1 ++ l2.takeWhile p := by
  induction l1 with
  | nil => rfl
  | cons c t ih =>
    rw [List.cons_append, List.takeWhile_cons, h c (List.mem_cons_self _ _)]
    simp only []
    rw [ih (fun x hx => h x (List.mem_cons_of_mem _ hx))]
    rfl

theorem map_all_id (f : Char → Char) : ∀ l : List Char, (∀ c ∈ l, f c = c) →
    l.map f = l := by
  intro l
  induction l with
  | nil => intro _; rfl
  | cons c t ih =>
    intro h
    rw [List.map_cons, h c (List.mem_cons_self _ _), ih (fun x hx => h x (List.mem_cons_of_mem _ hx))]

theorem normalizeSum_mk (ds : List Char) :
    normalizeSum ⟨ds⟩ = (ds.map pyLowerChar).map (fun c => if c = ',' then '.' else c) := rfl

theorem normalizeSum_digits (ds : List Char) (h : ∀ c ∈ ds, c ∈ digitChars) :
    normalizeSum ⟨ds⟩ = ds := by
  rw [normalizeSum_mk, map_all_id _ ds (fun c hc => digit_pyLowerChar c (h c hc)),
    map_all_id _ ds (fun c hc => ?_)]
  rw [if_neg (digit_ne_comma c (h c hc))]

theorem normalizeSum_digits_mln (ds : List Char) (h : ∀ c ∈ ds, c ∈ digitChars) :
    normalizeSum ⟨ds ++ " млн".data⟩ = ds ++ " млн".data := by
  rw [normalizeSum_mk, List.map_append, List.map_append,
    map_all_id _ ds (fun c hc => digit_pyLowerChar c (h c hc))]
  rw [show " млн".data.map pyLowerChar = " млн".data from by decide]
  rw [map_all_id _ ds (fun c hc => ?_),
    show " млн".data.map (fun c => if c = ',' then '.' else c) = " млн".data from by decide]
  rw [if_neg (digit_ne_comma c (h c hc))]

theorem matchMillionAt_alldigit (l : List Char) (h : ∀ c ∈ l, c.isDigit = true) :
    matchMillionAt l = none := by
  unfold matchMillionAt
  rw [takeWhile_all _ l h]
  cases l with
  | nil => rfl
  | cons c t =>
    dsimp only
    rw [List.drop_length]
    simp [show isPre "млн".data [] = false from rfl,
          show isPre "миллион".data [] = false from rfl,
          show isPre "million".data [] = false from rfl]

theorem millionSearch_alldigit (l : List Char) (h : ∀ c ∈ l, c.isDigit = true) :
    millionSearch l = none := by
  induction l with
  | nil => rfl
  | cons c t ih =>
    unfold millionSearch
    rw [matchMillionAt_alldigit _ h]
    exact ih (fun x hx => h x (List.mem_cons_of_mem _ hx))

theorem matchMillionAt_nodigit (l : List Char) (h : ∀ c ∈ l, c.isDigit = false) :
    matchMillionAt l = none := by
  cases l with
  | nil => rfl
  | cons c t =>
    unfold matchMillionAt
    simp [List.takeWhile_cons, h c (List.mem_cons_self _ _)]

theorem millionSearch_nodigit (l : List Char) (h : ∀ c ∈ l, c.isDigit = false) :
    millionSearch l = none := by
  induction l with
  | nil => rfl
  | cons c t ih =>
    unfold millionSearch
    rw [matchMillionAt_nodigit _ h]
    exact ih (fun x hx => h x (List.mem_cons_of_mem _ hx))

theorem matchMillionAt_mln (d0 : Char) (ds : List Char)
    (h : ∀ c ∈ (d0 :: ds), c.isDigit = true) :
    matchMillionAt ((d0 :: ds) ++ " млн".data) = some (ratOfParts (d0 :: ds) []) := by
  unfold matchMillionAt
  have h1 : ((d0 :: ds) ++ " млн".data).takeWhile Char.isDigit = (d0 :: ds) := by
    rw [takeWhile_all_append _ _ _ h,
      show " млн".data.takeWhile Char.isDigit = ([] : List Char) from rfl, List.append_nil]
  rw [h1]
  dsimp only
  rw [List.drop_left]
  rfl

theorem millionSearch_mln (d0 : Char) (ds : List Char)
    (h : ∀ c ∈ (d0 :: ds), c.isDigit = true) :
    millionSearch ((d0 :: ds) ++ " млн".data) = some (ratOfParts (d0 :: ds) []) := by
  rw [List.cons_append]
  unfold millionSearch
  rw [← List.cons_append, matchMillionAt_mln d0 ds h]

theorem getLast?_mem_own : ∀ (l : List Char) (a : Char), l.getLast? = some a → a ∈ l
  | [], a, h => by simp [List.getLast?] at h
  | [x], a, h => by
      simp [List.getLast?] at h
      simp [h]
  | x :: y :: t, a, h => by
      rw [List.getLast?_cons_cons] at h
      exact List.mem_cons_of_mem _ (getLast?_mem_own (y :: t) a h)

theorem pickLen_alldigit (run : List Char) (h : ∀ c ∈ run, c ∈ digitChars)
    (h5 : 5 ≤ run.length) :
    pickLen run [] run.length = some run.length := by
  obtain ⟨m, hm⟩ : ∃ m, run.length = m + 1 := ⟨run.length - 1, by omega⟩
  rw [hm]
  unfold pickLen
  rw [if_neg (by omega)]
  have htake : run.take (m + 1) = run := by rw [← hm]; exact List.take_length run
  rw [htake]
  cases hlast : run.getLast? with
  | none =>
    rw [List.getLast?_eq_none_iff] at hlast
    subst hlast
    simp at hm
  | some lst =>
    have hw : isWordChar lst = true := digit_isWord lst (h lst (getLast?_mem_own run lst hlast))
    have hdrop : run.drop (m + 1) = [] := by rw [← hm]; exact List.drop_length run
    rw [hdrop]
    simp [bbOk, hw]

theorem matchBareAt_alldigit (d0 : Char) (rest : List Char)
    (h : ∀ c ∈ (d0 :: rest), c ∈ digitChars) (h6 : 6 ≤ (d0 :: rest).length) :
    matchBareAt false (d0 :: rest) = some (natOfDigits (d0 :: rest)) := by
  have hd0 : d0.isDigit = true := digit_isDigit d0 (h d0 (List.mem_cons_self _ _))
  have hrun : rest.takeWhile isDigitOrSpace = rest :=
    takeWhile_all _ rest (fun x hx => digit_isDigitOrSpace x (h x (List.mem_cons_of_mem _ hx)))
  have hlen : 5 ≤ rest.length := by
    have := List.length_cons d0 rest
    omega
  have hfilter : (d0 :: rest).filter Char.isDigit = d0 :: rest :=
    List.filter_eq_self.mpr (fun x hx => digit_isDigit x (h x hx))
  unfold matchBareAt
  dsimp only
  rw [hrun, List.drop_length,
    pickLen_alldigit rest (fun x hx => h x (List.mem_cons_of_mem _ hx)) hlen]
  simp [hd0, List.take_length, hfilter]

theorem bareSearch_nodigit : ∀ (l : List Char) (prev : Bool),
    (∀ c ∈ l, c.isDigit = false) → bareSearch prev l = none := by
  intro l
  induction l with
  | nil => intro _ _; rfl
  | cons c t ih =>
    intro prev h
    have hc : c.isDigit = false := h c (List.mem_cons_self _ _)
    unfold bareSearch matchBareAt
    simp only [hc, Bool.and_false, Bool.false_eq_true, if_false]
    exact ih _ (fun x hx => h x (List.mem_cons_of_mem _ hx))

theorem ratOfParts_nil (ds : List Char) : ratOfParts ds [] = (natOfDigits ds : ℚ) := by
  unfold ratOfParts
  rw [show natOfDigits [] = 0 from rfl]
  norm_num

theorem pyIntTrunc_nat (n : Nat) : pyIntTrunc (n : ℚ) = (n : Int) := by
  unfold pyIntTrunc
  rw [if_pos (by positivity), ratFloor_eq]
  have h : ⌊((n : ℚ))⌋ = (n : ℤ) := Int.floor_natCast n
  exact_mod_cast h

theorem pyIntTrunc_scaled (n : Nat) : pyIntTrunc ((n : ℚ) * 1000000) = (n : Int) * 1000000 := by
  have h1 : ((n : ℚ) * 1000000) = ((n * 1000000 : ℕ) : ℚ) := by push_cast; ring
  rw [h1, pyIntTrunc_nat]
  push_cast
  ring

/-! ## C9: the money extractor -/

/-- C9 counterexample: the input "12345 x" contains no million marker
and only five digits, yet `parse_sum_rub` returns 12345: the
word-boundary pattern `\b(\d[\d\s]{5,})\b` accepts the group
"12345 " (five digits and a space), refuting the claim that a bare run
of at least six digits is required (and that anything else returns
None). -/
theorem parse_sum_five_digit_cex :
    parse_sum_rub "12345 x" = some 12345 ∧
    ("12345 x".data.filter Char.isDigit).length = 5 :=
  ⟨by decide, by decide⟩

/-- C9 (amended): `parse_sum_rub` never raises (it is a total
function); a text that is exactly a run of six or more decimal digits
parses to its integer value; a text that is exactly a nonempty digit
run followed by " млн" parses to the number scaled by 1,000,000 (with
`int()` truncating toward zero, and the `float` conversion modelled as
exact); a text containing no decimal digit parses to None; and whenever
the million pattern matches anywhere, its branch wins and the scaled
truncated value is returned — but the bare branch accepts any
word-boundary-delimited group of a digit followed by at least five
digit-or-whitespace characters, so inputs with fewer than six digits
can also parse (see the counterexample). -/
theorem parse_sum_amended :
    (∀ ds : List Char, (∀ c ∈ ds, c ∈ digitChars) → 6 ≤ ds.length →
      parse_sum_rub ⟨ds⟩ = some ((natOfDigits ds : Nat) : Int)) ∧
    (∀ ds : List Char, ds ≠ [] → (∀ c ∈ ds, c ∈ digitChars) →
      parse_sum_rub ⟨ds ++ " млн".data⟩ = some ((natOfDigits ds : Int) * 1000000)) ∧
    (∀ t : String, (∀ c ∈ t.data, c.isDigit = false) → parse_sum_rub t = none) ∧
    (∀ t v, millionSearch (normalizeSum t) = some v →
      parse_sum_rub t = some (pyIntTrunc (v * 1000000))) := by
  refine ⟨?_, ?_, ?_, ?_⟩
  · intro ds hd h6
    cases ds with
    | nil => simp at h6
    | cons d0 rest =>
      unfold parse_sum_rub
      rw [normalizeSum_digits _ hd,
        millionSearch_alldigit _ (fun c hc => digit_isDigit c (hd c hc))]
      dsimp only
      unfold bareSearch
      rw [matchBareAt_alldigit d0 rest hd h6]
  · intro ds hne hd
    cases ds with
    | nil => exact absurd rfl hne
    | cons d0 rest =>
      unfold parse_sum_rub
      rw [show (⟨(d0 :: rest) ++ " млн".data⟩ : String) = String.mk ((d0 :: rest) ++ " млн".data) from rfl]
      rw [normalizeSum_digits_mln _ hd,
        millionSearch_mln d0 rest (fun c hc => digit_isDigit c (hd c hc))]
      dsimp only
      rw [ratOfParts_nil, pyIntTrunc_scaled]
  · intro t ht
    have hm : millionSearch (normalizeSum t) = none := by
      apply millionSearch_nodigit
      intro c hc
      unfold normalizeSum at hc
      simp only [List.mem_map] at hc
      obtain ⟨b, ⟨a, ha, rfl⟩, rfl⟩ := hc
      exact normStep_nondigit a (ht a ha)
    unfold parse_sum_rub
    rw [hm]
    dsimp only
    rw [bareSearch_nodigit t.data false ht]
  · intro t v h
    unfold parse_sum_rub
    rw [h]

/-- Witness for C9 (amended): a plain six-digit amount parses to
itself. -/
theorem parse_sum_amended_w :
    parse_sum_rub ⟨"500000".data⟩ = some ((natOfDigits "500000".data : Nat) : Int) :=
  parse_sum_amended.1 "500000".data (by decide) (by decide)

end Insurance
